import Mathlib

/-!
Verification development for the adaptive-streaming manifest resolution engine
of `youtube_dl/extractor/common.py` (the `InfoExtractor` manifest parsers and
the format selector).

The Python source is shallowly embedded:
  * Python dicts holding format descriptors become the `Fmt` structure, whose
    fields are `Option`-typed values (`none` models the value `None`; for
    descriptors produced by the parsers in this module every key is present,
    so key-presence and `None`-valuedness are conflated, which is noted where
    it matters).
  * Python ints/floats become `Int`/`Rat`.  Rational arithmetic is written
    with `Rat.divInt`-based helpers (`q`, `qadd`, `qsub`) so that all values
    stay kernel-computable.
  * XML element trees become structures holding exactly the attributes and
    children the source reads.  Numeric XML attributes that the source
    converts with bare `int(...)` are modelled as already-parsed `Option Int`
    (malformed numerals, which make Python raise `ValueError`, are outside
    the scope of every claim).
  * Fallible code (Python `KeyError` / `TypeError`) returns `Except String`.
  * Helper functions the source imports from `youtube_dl.utils` (not part of
    the analysed file) are modelled from the specification and marked
    `Modelled from the spec:` in their doc comments.
-/

/-! ## Rational helpers (kernel-computable arithmetic) -/

/-- Rational literal `n / d`, normalised. -/
def q (n d : Int) : Rat := Rat.divInt n d

/-- Kernel-computable rational addition. -/
def qadd (a b : Rat) : Rat :=
  Rat.divInt (a.num * (b.den : Int) + b.num * (a.den : Int)) ((a.den : Int) * (b.den : Int))

/-- Kernel-computable rational subtraction. -/
def qsub (a b : Rat) : Rat :=
  Rat.divInt (a.num * (b.den : Int) - b.num * (a.den : Int)) ((a.den : Int) * (b.den : Int))

/-- Kernel-computable rational division (`a / b`; division by zero yields 0,
which no claim exercises). -/
def qdiv (a b : Rat) : Rat :=
  Rat.divInt (a.num * (b.den : Int)) ((a.den : Int) * b.num)

/-! ## Character/string utilities

Python string operations are modelled over `List Char`. -/

/-- Python `str.startswith` on character lists. -/
def beginsWith (pat s : List Char) : Bool := pat.isPrefixOf s

/-- Python `pat in s` (substring containment). -/
def containsSub (fuel : Nat) (pat s : List Char) : Bool :=
  match fuel with
  | 0 => false
  | fuel + 1 =>
    match s with
    | [] => pat = []
    | _ :: cs => if pat.isPrefixOf s then true else containsSub fuel pat cs

/-- Python `pat in s` for strings. -/
def strContains (s pat : String) : Bool := containsSub (s.data.length + 1) pat.data s.data

/-- Python `str.replace(pat, rep)` (all non-overlapping occurrences, left to
right); the empty pattern is returned unchanged (no claim exercises it). -/
def replaceAllAux (fuel : Nat) (pat rep : List Char) (s : List Char) : List Char :=
  match fuel with
  | 0 => s
  | fuel + 1 =>
    match s with
    | [] => []
    | c :: cs =>
      if pat ≠ [] ∧ pat.isPrefixOf s then
        rep ++ replaceAllAux fuel pat rep (s.drop pat.length)
      else
        c :: replaceAllAux fuel pat rep cs

/-- String-level `str.replace`. -/
def strReplace (s pat rep : String) : String :=
  String.mk (replaceAllAux (s.data.length + 1) pat.data rep.data s.data)

/-- Python `str.strip()` (trim ASCII whitespace at both ends). -/
def pyStrip (s : String) : String :=
  String.mk (((s.data.dropWhile Char.isWhitespace).reverse.dropWhile Char.isWhitespace).reverse)

/-- Python `str.splitlines()` restricted to `\n` separators: a trailing
newline does not produce a final empty line. -/
def splitLinesAux (fuel : Nat) (cur : List Char) (s : List Char) : List (List Char) :=
  match fuel with
  | 0 => [cur.reverse]
  | fuel + 1 =>
    match s with
    | [] => [cur.reverse]
    | c :: cs =>
      if c = '\n' then
        match cs with
        | [] => [cur.reverse]
        | _ => cur.reverse :: splitLinesAux fuel [] cs
      else splitLinesAux fuel (c :: cur) cs

/-- Python `str.splitlines()` for strings (empty string gives no lines). -/
def pySplitlines (s : String) : List String :=
  match s.data with
  | [] => []
  | _ => (splitLinesAux (s.data.length + 1) [] s.data).map String.mk

/-- Parse a decimal integer with optional sign, as Python `int(...)` does on
well-formed numerals (surrounding whitespace and malformed input are outside
the scope of every claim: there Python raises `ValueError`). -/
def digitsToNat (l : List Char) : Option Nat :=
  match l with
  | [] => none
  | _ => l.foldl (fun acc c =>
      match acc with
      | none => none
      | some n => if c.isDigit then some (n * 10 + (c.toNat - 48)) else none) (some 0)

/-- Python `int(...)` on a decimal string. -/
def pyInt (s : String) : Option Int :=
  match s.data with
  | '-' :: rest => (digitsToNat rest).map (fun n => -(n : Int))
  | '+' :: rest => (digitsToNat rest).map (fun n => (n : Int))
  | l => (digitsToNat l).map (fun n => (n : Int))

/-- Python `str(...)` of an integer. -/
def pyStrInt (n : Int) : String := toString n

/-- Python `str(...)` of an `Option` that may be `None` (`str(None) = "None"`). -/
def pyStrOptInt (n : Option Int) : String :=
  match n with
  | none => "None"
  | some n => pyStrInt n

/-- Split a character list on a separator character (Python `str.split(sep)`
shape: an empty input yields one empty field). -/
def splitCharAux (sep : Char) : List Char → List Char → List (List Char)
  | [], cur => [cur.reverse]
  | c :: cs, cur =>
    if c = sep then cur.reverse :: splitCharAux sep cs []
    else splitCharAux sep cs (c :: cur)

/-- String-level split on a one-character separator. -/
def strSplitChar (s : String) (sep : Char) : List String :=
  (splitCharAux sep s.data []).map String.mk

/-- Join strings with a separator (Python `sep.join(parts)`). -/
def joinSep (sep : String) : List String → String
  | [] => ""
  | [x] => x
  | x :: xs => x ++ sep ++ joinSep sep xs

/-! ## Coercion utilities modelled from the spec

These live in `youtube_dl/utils.py`, outside the analysed source file; the
spec describes them as "pure functions converting loosely-typed manifest
attributes into typed values or `None`". -/

/-- Modelled from the spec: `int_or_none(v, scale)` — `None`/empty input gives
`None`, otherwise the integer divided (floor division) by `scale`. -/
def int_or_none (v : Option String) (scale : Int) : Option Int :=
  match v with
  | none => none
  | some s => if s = "" then none else (pyInt s).map (fun n => Int.fdiv n scale)

/-- Modelled from the spec: `int_or_none` over an already-parsed numeric
attribute. -/
def int_or_noneI (v : Option Int) (scale : Int) : Option Int :=
  v.map (fun n => Int.fdiv n scale)

/-- Modelled from the spec: `float_or_none(v, scale)` over an already-parsed
integer — `None` propagates, otherwise true division by `scale`. -/
def float_or_noneI (v : Option Int) (scale : Int) : Option Rat :=
  v.map (fun n => Rat.divInt n scale)

/-- Parse a non-negative decimal such as `29.97` into a rational (used for
attribute values Python feeds to `float(...)`). -/
def parseDecimal (s : String) : Option Rat :=
  match s.data.span (fun c => c ≠ '.') with
  | (intPart, []) => (digitsToNat intPart).map (fun n => q n 1)
  | (intPart, _ :: fracPart) =>
    match digitsToNat intPart, digitsToNat fracPart with
    | some n, some f => some (qadd (q n 1) (Rat.divInt f ((10 : Int) ^ fracPart.length)))
    | _, _ => none

/-- Modelled from the spec: `float_or_none` on a textual attribute. -/
def float_or_none (v : Option String) : Option Rat :=
  v.bind parseDecimal

/-- Modelled from the spec: `determine_ext(url)` — the substring of the URL
after the last `.` (query string stripped), if purely alphanumeric, else the
default `"unknown_video"`. -/
def determine_ext (u : Option String) : String :=
  match u with
  | none => "unknown_video"
  | some s =>
    let beforeQ := s.data.takeWhile (fun c => c ≠ '?')
    let guess :=
      match (beforeQ.reverse.span (fun c => c ≠ '.')) with
      | (revTail, []) => revTail.reverse
      | (revTail, _) => revTail.reverse
    if guess ≠ [] ∧ guess.all (fun c => c.isAlphanum) then String.mk guess
    else "unknown_video"

/-! ## Format descriptors -/

/-- One media fragment of a fragmented format (`{url, duration}` dict). -/
structure Fragment where
  url : Option String := none
  duration : Option Rat := none
deriving DecidableEq, Repr

/-- Side-channel decode parameters attached by the ISM parser
(`_download_params`). -/
structure DlParams where
  duration : Int := 0
  timescale : Int := 1
  width : Int := 0
  height : Int := 0
  fourcc : String := ""
  codec_private_data : Option String := none
  sampling_rate : Option Int := none
  channels : Option Int := none
  bits_per_sample : Option Int := none
  nal_unit_length_field : Option Int := none
deriving DecidableEq, Repr

/-- A format descriptor.  Fields are the dict values; `none` is Python
`None`.  Descriptors produced by the parsers of this module always carry
their keys, so key-presence and `None`-valuedness coincide (noted at
`sort_formats_fill_tbr`, the one place the source tests key presence). -/
structure Fmt where
  format_id : Option String := none
  url : Option String := none
  manifest_url : Option String := none
  ext : Option String := none
  protocol : Option String := none
  preference : Option Rat := none
  language : Option String := none
  language_preference : Option Rat := none
  quality : Option Rat := none
  tbr : Option Rat := none
  vbr : Option Rat := none
  abr : Option Rat := none
  asr : Option Rat := none
  fps : Option Rat := none
  filesize : Option Rat := none
  filesize_approx : Option Rat := none
  source_preference : Option Rat := none
  vcodec : Option String := none
  acodec : Option String := none
  width : Option Rat := none
  height : Option Rat := none
  resolution : Option String := none
  format_note : Option String := none
  fragments : Option (List Fragment) := none
  download_params : Option DlParams := none
deriving DecidableEq, Repr

/-- Modelled from the spec: `determine_protocol` — explicit protocol wins,
else sniff the URL scheme/extension (`rtmp`/`mms`/`rtsp` prefixes, `m3u8` or
`f4m` extension, default `http`).  Python raises on a missing URL; callers
guard with `sortKeyDefined`. -/
def determine_protocol (f : Fmt) : String :=
  match f.url with
  | none => "http"
  | some u =>
    if beginsWith "rtmp".data u.data then "rtmp"
    else if beginsWith "mms".data u.data then "mms"
    else if beginsWith "rtsp".data u.data then "rtsp"
    else
      let e := determine_ext (some u)
      if e = "m3u8" then "m3u8" else if e = "f4m" then "f4m" else "http"

/-! ## The format selector (`_sort_formats`)

Translated from `_sort_formats` in the source (the default composite key; the
caller-supplied `field_preference` override, which claims C1 and C10 both
exclude, is not modelled). -/

/-- First loop of `_sort_formats`: synthesize `tbr` from `abr + vbr` when
missing.  (The source tests `'tbr' not in f`; descriptors made by this
module always carry the key, here conflated with a `none` value.) -/
def sort_formats_fill_tbr (f : Fmt) : Fmt :=
  if f.tbr = none ∧ f.abr ≠ none ∧ f.vbr ≠ none then
    { f with tbr := some (qadd (f.abr.getD 0) (f.vbr.getD 0)) }
  else f

/-- The ext workaround at the top of `_formats_key`: a falsy `ext` is
replaced by `determine_ext(url)` when a URL is available. -/
def formats_key_fix_ext (f : Fmt) : Fmt :=
  if (f.ext = none ∨ f.ext = some "") ∧ f.url ≠ none then
    { f with ext := some (determine_ext f.url) }
  else f

/-- Python `ORDER.index(ext)` with `ValueError` mapped to `-1` (a `None`
ext also yields `-1`, matching `ValueError` on `None`). -/
def orderIndex (ord : List String) (ext : Option String) : Rat :=
  match ext with
  | none => q (-1) 1
  | some e =>
    match ord.findIdx? (fun x => x = e) with
    | some i => q (Int.ofNat i) 1
    | none => q (-1) 1

/-- The `preference` component of `_formats_key` before codec penalties:
explicit value, else 0 with a −0.5 penalty for `f4f`/`f4m` containers. -/
def formats_key_base_preference (f : Fmt) : Rat :=
  match f.preference with
  | some p => p
  | none => if f.ext = some "f4f" ∨ f.ext = some "f4m" then q (-1) 2 else 0

/-- The codec branch of `_formats_key`: returns the penalised preference,
`ext_preference` and `audio_ext_preference`. -/
def formats_key_codec_branch (preferFree : Bool) (f : Fmt) (pref : Rat) : Rat × Rat × Rat :=
  if f.vcodec = some "none" then
    let ord := if preferFree then ["aac", "mp3", "m4a", "webm", "ogg", "opus"]
               else ["webm", "opus", "ogg", "mp3", "aac", "m4a"]
    (qsub pref (q 50 1), 0, orderIndex ord f.ext)
  else
    let pref2 := if f.acodec = some "none" then qsub pref (q 40 1) else pref
    let ord := if preferFree then ["flv", "mp4", "webm"] else ["webm", "flv", "mp4"]
    (pref2, orderIndex ord f.ext, 0)

/-- The composite sort key of `_formats_key` (15 numeric components followed
by the `format_id` tie-break). -/
def formats_key (preferFree : Bool) (f : Fmt) : List Rat × String :=
  let protocol :=
    match f.protocol with
    | some p => if p = "" then determine_protocol f else p
    | none => determine_protocol f
  let protoPref : Rat :=
    if protocol = "http" ∨ protocol = "https" then 0
    else if protocol = "rtsp" then q (-1) 2 else q (-1) 10
  let res := formats_key_codec_branch preferFree f (formats_key_base_preference f)
  ([res.1,
    f.language_preference.getD (q (-1) 1),
    f.quality.getD (q (-1) 1),
    f.tbr.getD (q (-1) 1),
    f.filesize.getD (q (-1) 1),
    f.vbr.getD (q (-1) 1),
    f.height.getD (q (-1) 1),
    f.width.getD (q (-1) 1),
    protoPref,
    res.2.1,
    f.abr.getD (q (-1) 1),
    res.2.2,
    f.fps.getD (q (-1) 1),
    f.filesize_approx.getD (q (-1) 1),
    f.source_preference.getD (q (-1) 1)],
   f.format_id.getD "")

/-- Key computation is total in the model; in Python it raises when a format
has neither a truthy `protocol` nor a `url` (`determine_protocol` indexes
`f['url']`).  `sort_formats` guards with this predicate. -/
def sortKeyDefined (f : Fmt) : Bool :=
  (match f.protocol with | some p => decide (p ≠ "") | none => false) || f.url.isSome

/-- Strict lexicographic comparison of equal-length rational lists (Python
tuple `<` on the numeric prefix of the key). -/
def lexListLt : List Rat → List Rat → Bool
  | [], [] => false
  | [], _ :: _ => true
  | _ :: _, [] => false
  | a :: as, b :: bs =>
    if Rat.blt a b then true else if Rat.blt b a then false else lexListLt as bs

/-- Code-point lexicographic comparison of character lists (Python string
comparison). -/
def charListLe : List Char → List Char → Bool
  | [], _ => true
  | _ :: _, [] => false
  | a :: as, b :: bs =>
    if a.toNat < b.toNat then true
    else if b.toNat < a.toNat then false
    else charListLe as bs

/-- Python `<=` on strings. -/
def strLeB (x y : String) : Bool := charListLe x.data y.data

/-- Non-strict comparison of composite keys: numeric components first, then
the `format_id` string (Python tuple comparison). -/
def keyLe (x y : List Rat × String) : Bool :=
  if lexListLt x.1 y.1 then true
  else if lexListLt y.1 x.1 then false
  else strLeB x.2 y.2

/-- Strict comparison of composite keys. -/
def keyLt (x y : List Rat × String) : Bool :=
  keyLe x y && !(keyLe y x)

/-- Format comparison used by the sort. -/
def fmtLe (preferFree : Bool) (a b : Fmt) : Bool :=
  keyLe (formats_key preferFree a) (formats_key preferFree b)

/-- Translation of `_sort_formats` (default key path): error on an empty
list, else synthesize `tbr`, fix `ext` and stably sort ascending by the
composite key.  (`insertionSort` is a stable sort, as is Python's; the
`AttributeError` branch mirrors Python raising while computing keys of
formats with neither protocol nor url.) -/
def sort_formats (preferFree : Bool) (formats : List Fmt) : Except String (List Fmt) :=
  if formats = [] then Except.error "No video formats found"
  else if ((formats.map sort_formats_fill_tbr).map formats_key_fix_ext).all sortKeyDefined then
    Except.ok (List.insertionSort (fun a b => fmtLe preferFree a b = true)
      ((formats.map sort_formats_fill_tbr).map formats_key_fix_ext))
  else Except.error "AttributeError"

/-! ## String-keyed dicts (for tag attribute maps) -/

/-- Dict assignment `d[k] = v` (later assignments overwrite). -/
def dictSet (d : List (String × String)) (k v : String) : List (String × String) :=
  if d.any (fun kv => kv.1 = k) then
    d.map (fun kv => if kv.1 = k then (k, v) else kv)
  else d ++ [(k, v)]

/-- Dict lookup `d.get(k)`. -/
def dictGet (d : List (String × String)) (k : String) : Option String :=
  (d.find? (fun kv => kv.1 = k)).map (fun kv => kv.2)

/-- Python `x or y` on optional strings (empty string is falsy). -/
def pyOrStr (a b : Option String) : Option String :=
  match a with
  | some s => if s ≠ "" then some s else b
  | none => b

/-- Python `'-'.join(filter(None, parts))`. -/
def joinFilterDash (parts : List (Option String)) : String :=
  joinSep "-" ((parts.filterMap id).filter (fun s => s ≠ ""))

/-! ## Attribute and URL helpers modelled from the spec -/

/-- One scan step for `parse_m3u8_attributes`: try to match
`KEY=VALUE` (`KEY` in `[A-Z0-9-]+`, `VALUE` quoted or comma-free) followed by
a comma or the end of the line. -/
def m3u8AttrMatch (l : List Char) : Option ((String × String) × List Char) :=
  let isKeyChar := fun (c : Char) => (c.isUpper || c.isDigit || c = '-')
  match l.span isKeyChar with
  | ([], _) => none
  | (key, rest) =>
    match rest with
    | '=' :: '"' :: rest2 =>
      match rest2.span (fun c => c ≠ '"') with
      | (_, []) => none
      | ([], _) => none
      | (v, _ :: rest3) =>
        match rest3 with
        | [] => some ((String.mk key, String.mk v), [])
        | ',' :: rest4 => some ((String.mk key, String.mk v), rest4)
        | _ => none
    | '=' :: rest2 =>
      match rest2.span (fun c => c ≠ '"' ∧ c ≠ ',') with
      | ([], _) => none
      | (v, []) => some ((String.mk key, String.mk v), [])
      | (v, ',' :: rest3) => some ((String.mk key, String.mk v), rest3)
      | (_, _) => none
    | _ => none

/-- Modelled from the spec: `parse_m3u8_attributes` — scan an `#EXT-X-…` tag
line for comma-separated `KEY=VALUE` attribute pairs (values optionally
double-quoted), later keys overwriting earlier ones. -/
def parse_m3u8_attributes_aux (fuel : Nat) (acc : List (String × String)) (l : List Char) :
    List (String × String) :=
  match fuel with
  | 0 => acc
  | fuel + 1 =>
    match l with
    | [] => acc
    | _ :: cs =>
      match m3u8AttrMatch l with
      | some ((k, v), rest) => parse_m3u8_attributes_aux fuel (dictSet acc k v) rest
      | none => parse_m3u8_attributes_aux fuel acc cs

/-- Modelled from the spec: `parse_m3u8_attributes` on a tag line. -/
def parse_m3u8_attributes (line : String) : List (String × String) :=
  parse_m3u8_attributes_aux (line.data.length + 1) [] line.data

/-- Modelled from the spec: the shared codec-string parser `parse_codecs`.
Returns `none` when the codec string contributes no keys, otherwise the
`(vcodec, acodec)` pair (both keys are always set together). -/
def parse_codecs (s : Option String) : Option (Option String × Option String) :=
  match s with
  | none => none
  | some str =>
    if str = "" then none
    else
      let parts := ((strSplitChar str ',').map pyStrip).filter (fun p => p ≠ "")
      let isV := fun (p : String) =>
        ["avc1", "avc2", "avc3", "avc4", "vp8", "vp9", "hev1", "hev2", "h264", "mp4v"].any
          (fun pre => beginsWith pre.data p.data)
      let isA := fun (p : String) =>
        ["mp4a", "opus", "vorbis", "mp3", "aac", "ac-3", "ec-3"].any
          (fun pre => beginsWith pre.data p.data)
      let vcodec := parts.find? isV
      let acodec := parts.find? isA
      if vcodec = none ∧ acodec = none then none else some (vcodec, acodec)

/-- Modelled from the spec: `mimetype2ext` — a few known MIME pairs, else the
subtype. -/
def mimetype2ext (m : String) : String :=
  if m = "audio/mp4" then "m4a"
  else if m = "audio/mpeg" then "mp3"
  else
    match strSplitChar m '/' with
    | [_, sub] => sub
    | _ => m

/-- Does the string match `^(?:https?:)?//`? -/
def isHttpOrRel (s : String) : Bool :=
  beginsWith "//".data s.data || beginsWith "http://".data s.data ||
    beginsWith "https://".data s.data

/-- Does the string match `^https?://`? -/
def isHttpAbs (s : String) : Bool :=
  beginsWith "http://".data s.data || beginsWith "https://".data s.data

/-- Modelled from the spec: RFC-style relative URL resolution
(`urllib.parse.urljoin`) restricted to the shapes the claims exercise:
absolute references win; otherwise the reference replaces the last path
component of the base (bases are always absolute `http(s)` URLs here). -/
def pyUrljoin (base rel : String) : String :=
  if isHttpOrRel rel then rel
  else
    match base.data.reverse.span (fun c => c ≠ '/') with
    | (_, revDir) => String.mk (revDir.reverse ++ rel.data)

/-- Modelled from the spec: `utils.urljoin` — `none` unless the reference is
usable; an already-absolute reference is returned as is; otherwise the base
must itself be an absolute URL. -/
def urljoinU (base : Option String) (path : Option String) : Option String :=
  match path with
  | none => none
  | some p =>
    if p = "" then none
    else if isHttpOrRel p then some p
    else
      match base with
      | none => none
      | some b => if isHttpOrRel b then some (pyUrljoin b p) else none

/-! ## The Unified-Streaming-Platform bitrate sniffing regex

Direct translation of `re.search(r'audio.*?(?:%3D|=)(\d+)(?:-video.*?(?:%3D|=)(\d+))?', url)`
(source line 1298). -/

/-- Scan for `(?:%3D|=)(\d+)`: the first position bearing `%3D` or `=`
followed by at least one digit; returns the digit group and the remainder. -/
def findEqDigits (fuel : Nat) (l : List Char) : Option (List Char × List Char) :=
  match fuel with
  | 0 => none
  | fuel + 1 =>
    match l with
    | [] => none
    | _ :: cs =>
      if beginsWith "%3D".data l ∧ ((l.drop 3).headD ' ').isDigit then
        some ((l.drop 3).takeWhile Char.isDigit, (l.drop 3).dropWhile Char.isDigit)
      else if beginsWith "=".data l ∧ ((l.drop 1).headD ' ').isDigit then
        some ((l.drop 1).takeWhile Char.isDigit, (l.drop 1).dropWhile Char.isDigit)
      else findEqDigits fuel cs

/-- Scan for the full pattern starting at each position (leftmost match). -/
def uspSearchAux (fuel : Nat) (l : List Char) : Option (List Char × Option (List Char)) :=
  match fuel with
  | 0 => none
  | fuel + 1 =>
    match l with
    | [] => none
    | _ :: cs =>
      if beginsWith "audio".data l then
        match findEqDigits (l.length + 1) (l.drop 5) with
        | some (d1, rest) =>
          if beginsWith "-video".data rest then
            match findEqDigits (rest.length + 1) (rest.drop 6) with
            | some (d2, _) => some (d1, some d2)
            | none => some (d1, none)
          else some (d1, none)
        | none => uspSearchAux fuel cs
      else uspSearchAux fuel cs

/-- The Unified Streaming Platform audio/video bitrate groups of the URL, when
the regex matches. -/
def uspSearch (url : String) : Option (List Char × Option (List Char)) :=
  uspSearchAux (url.data.length + 1) url.data

/-- Translation of `re.search(r'(?P<width>\d+)[xX](?P<height>\d+)', resolution)`
(source line 1293). -/
def resSearchAux (fuel : Nat) (l : List Char) : Option (Nat × Nat) :=
  match fuel with
  | 0 => none
  | fuel + 1 =>
    match l with
    | [] => none
    | c :: _ =>
      if c.isDigit then
        let w := l.takeWhile Char.isDigit
        match l.dropWhile Char.isDigit with
        | x :: r2 =>
          if (x = 'x' ∨ x = 'X') ∧ (r2.headD ' ').isDigit then
            match digitsToNat w, digitsToNat (r2.takeWhile Char.isDigit) with
            | some wn, some hn => some (wn, hn)
            | _, _ => resSearchAux fuel l.tail
          else resSearchAux fuel l.tail
        | [] => none
      else resSearchAux fuel l.tail

/-- `WIDTHxHEIGHT` search on a `RESOLUTION` attribute. -/
def resSearch (s : String) : Option (Nat × Nat) :=
  resSearchAux (s.data.length + 1) s.data

/-! ## The HLS (m3u8) parser

Translation of the parsing part of `_extract_m3u8_formats` (everything after
the playlist download, source lines 1201–1314) and of `_m3u8_meta_format`. -/

/-- Translation of `_m3u8_meta_format`: the synthetic "meta" descriptor for
the master playlist (`preference - 100 if preference else -100`). -/
def m3u8_meta_format (m3u8_url : String) (ext : Option String) (preference : Option Rat)
    (m3u8_id : Option String) : Fmt :=
  { format_id := some (joinFilterDash [m3u8_id, some "meta"])
    url := some m3u8_url
    ext := ext
    protocol := some "m3u8"
    preference := some (match preference with
      | some p => if p = 0 then q (-100) 1 else qsub p (q 100 1)
      | none => q (-100) 1)
    resolution := some "multiple"
    format_note := some "Quality selection URL" }

/-- The `format_url` lambda of `_extract_m3u8_formats`. -/
def m3u8_format_url (m3u8_url u : String) : String :=
  if isHttpAbs u then u else pyUrljoin m3u8_url u

/-- Line-walk state of `_extract_m3u8_formats`: the audio-group map,
`last_info`, `last_media` and the accumulated formats. -/
structure M3u8State where
  audio_in_video_stream : List (String × Bool) := []
  last_info : List (String × String) := []
  last_media : List (String × String) := []
  formats : List Fmt := []

/-- Lookup in the audio-group map. -/
def groupGet (m : List (String × Bool)) (k : String) : Option Bool :=
  (m.find? (fun kv => kv.1 = k)).map (fun kv => kv.2)

/-- Assignment in the audio-group map. -/
def groupSet (m : List (String × Bool)) (k : String) (v : Bool) : List (String × Bool) :=
  if m.any (fun kv => kv.1 = k) then m.map (fun kv => if kv.1 = k then (k, v) else kv)
  else m ++ [(k, v)]

/-- One iteration of the master-playlist line walk (source lines 1232–1313). -/
def m3u8_step (m3u8_url : String) (ext : Option String) (entry_protocol : String)
    (preference : Option Rat) (m3u8_id : Option String) (live : Bool)
    (st : M3u8State) (line : String) : M3u8State :=
  if beginsWith "#EXT-X-STREAM-INF:".data line.data then
    { st with last_info := parse_m3u8_attributes line }
  else if beginsWith "#EXT-X-MEDIA:".data line.data then
    let media := parse_m3u8_attributes line
    let media_type := dictGet media "TYPE"
    if media_type = some "VIDEO" ∨ media_type = some "AUDIO" then
      let group_id := dictGet media "GROUP-ID"
      match dictGet media "URI" with
      | some media_url =>
        let format_id := joinFilterDash [group_id, dictGet media "NAME"]
        let f : Fmt :=
          { format_id := some format_id
            url := some (m3u8_format_url m3u8_url media_url)
            language := dictGet media "LANGUAGE"
            ext := ext
            protocol := some entry_protocol
            preference := preference }
        let f := if media_type = some "AUDIO" then { f with vcodec := some "none" } else f
        let aivs :=
          if media_type = some "AUDIO" then
            match group_id with
            | some g =>
              if g ≠ "" ∧ (groupGet st.audio_in_video_stream g).getD false = false then
                groupSet st.audio_in_video_stream g false
              else st.audio_in_video_stream
            | none => st.audio_in_video_stream
          else st.audio_in_video_stream
        { st with audio_in_video_stream := aivs, formats := st.formats ++ [f] }
      | none =>
        let aivs :=
          if media_type = some "AUDIO" then
            match group_id with
            | some g => if g ≠ "" then groupSet st.audio_in_video_stream g true
                        else st.audio_in_video_stream
            | none => st.audio_in_video_stream
          else st.audio_in_video_stream
        { st with last_media := media, audio_in_video_stream := aivs }
    else st
  else if beginsWith "#".data line.data ∨ pyStrip line = "" then st
  else
    let tbr := int_or_none
      (pyOrStr (dictGet st.last_info "AVERAGE-BANDWIDTH") (dictGet st.last_info "BANDWIDTH")) 1000
    let idParts : List String :=
      (match m3u8_id with
       | some i => if i ≠ "" then [i] else []
       | none => []) ++
      (if live then []
       else
         [match pyOrStr (dictGet st.last_info "NAME") (dictGet st.last_media "NAME") with
          | some nm =>
            if nm ≠ "" then nm
            else pyStrInt (match tbr with
              | some t => if t ≠ 0 then t else (st.formats.length : Int)
              | none => (st.formats.length : Int))
          | none =>
            pyStrInt (match tbr with
              | some t => if t ≠ 0 then t else (st.formats.length : Int)
              | none => (st.formats.length : Int))])
    let manifest_url := m3u8_format_url m3u8_url (pyStrip line)
    let f : Fmt :=
      { format_id := some (joinSep "-" idParts)
        url := some manifest_url
        manifest_url := some manifest_url
        tbr := (tbr.map (fun n => q n 1))
        ext := ext
        fps := float_or_none (dictGet st.last_info "FRAME-RATE")
        protocol := some entry_protocol
        preference := preference }
    let f :=
      match dictGet st.last_info "RESOLUTION" with
      | some r =>
        if r ≠ "" then
          match resSearch r with
          | some (w, h) => { f with width := some (q (Int.ofNat w) 1), height := some (q (Int.ofNat h) 1) }
          | none => f
        else f
      | none => f
    let f :=
      match uspSearch manifest_url with
      | some (d1, d2) =>
        { f with abr := (digitsToNat d1).map (fun n => Rat.divInt (Int.ofNat n) 1000)
                 vbr := d2.bind (fun d => (digitsToNat d).map (fun n => Rat.divInt (Int.ofNat n) 1000)) }
      | none => f
    let f :=
      match parse_codecs (dictGet st.last_info "CODECS") with
      | some (v, a) => { f with vcodec := v, acodec := a }
      | none => f
    let f :=
      match dictGet st.last_info "AUDIO" with
      | some g =>
        (match groupGet st.audio_in_video_stream g with
         | some false => { f with acodec := some "none" }
         | _ => f)
      | none => f
    { st with formats := st.formats ++ [f], last_info := [], last_media := [] }

/-- Translation of `_extract_m3u8_formats` after the playlist download: a
media playlist (containing `#EXT-X-TARGETDURATION`) is returned as a single
descriptor; a master playlist is line-walked, with the synthetic meta
descriptor first. -/
def extract_m3u8_formats_doc (m3u8_doc m3u8_url : String) (ext : Option String)
    (entry_protocol : String) (preference : Option Rat) (m3u8_id : Option String)
    (live : Bool) : List Fmt :=
  if strContains m3u8_doc "#EXT-X-TARGETDURATION" then
    [{ url := some m3u8_url
       format_id := m3u8_id
       ext := ext
       protocol := some entry_protocol
       preference := preference }]
  else
    let st0 : M3u8State := { formats := [m3u8_meta_format m3u8_url ext preference m3u8_id] }
    ((pySplitlines m3u8_doc).foldl
      (m3u8_step m3u8_url ext entry_protocol preference m3u8_id live) st0).formats

/-! ## DASH (MPD): media template transformation

Direct translation of source lines 1697–1701 and of the `%`-formatting the
templates are then fed through. -/

/-- Translation of `re.sub(r'\$(Number|Bandwidth|Time)\$', r'%(\1)d', t)`. -/
def dashSubPlainAux (fuel : Nat) (l : List Char) : List Char :=
  match fuel with
  | 0 => l
  | fuel + 1 =>
    match l with
    | [] => []
    | c :: cs =>
      if beginsWith "$Number$".data l then "%(Number)d".data ++ dashSubPlainAux fuel (l.drop 8)
      else if beginsWith "$Bandwidth$".data l then
        "%(Bandwidth)d".data ++ dashSubPlainAux fuel (l.drop 11)
      else if beginsWith "$Time$".data l then "%(Time)d".data ++ dashSubPlainAux fuel (l.drop 6)
      else c :: dashSubPlainAux fuel cs

/-- One attempted match of `\$Name%([^$]+)\$` at the current position. -/
def dashFmtMatch (name : String) (l : List Char) : Option (List Char × List Char) :=
  let pre := ("$" ++ name ++ "%").data
  if pre.isPrefixOf l then
    match (l.drop pre.length).span (fun c => c ≠ '$') with
    | ([], _) => none
    | (_, []) => none
    | (fmt, _ :: rest) => some (("%(" ++ name ++ ")").data ++ fmt, rest)
  else none

/-- Translation of `re.sub(r'\$(Number|Bandwidth|Time)%([^$]+)\$', r'%(\1)\2', t)`. -/
def dashSubFmtAux (fuel : Nat) (l : List Char) : List Char :=
  match fuel with
  | 0 => l
  | fuel + 1 =>
    match l with
    | [] => []
    | c :: cs =>
      match dashFmtMatch "Number" l with
      | some (rep, rest) => rep ++ dashSubFmtAux fuel rest
      | none =>
        match dashFmtMatch "Bandwidth" l with
        | some (rep, rest) => rep ++ dashSubFmtAux fuel rest
        | none =>
          match dashFmtMatch "Time" l with
          | some (rep, rest) => rep ++ dashSubFmtAux fuel rest
          | none => c :: dashSubFmtAux fuel cs

/-- The two regex substitutions on a media template. -/
def dashSubPlain (s : String) : String := String.mk (dashSubPlainAux (s.data.length + 1) s.data)

/-- Second substitution pass. -/
def dashSubFmt (s : String) : String := String.mk (dashSubFmtAux (s.data.length + 1) s.data)

/-- Render an integer for a `%(key)<width>d` conversion; a leading `0` in the
width zero-pads (the only flag the transformed templates produce). -/
def renderD (spec : List Char) (v : Int) : List Char :=
  let ds := (toString v).data
  match spec with
  | [] => ds
  | c :: _ =>
    match digitsToNat spec with
    | some w =>
      if c = '0' then
        match ds with
        | '-' :: digits => '-' :: (List.replicate (w - 1 - digits.length) '0') ++ digits
        | _ => (List.replicate (w - ds.length) '0') ++ ds
      else (List.replicate (w - ds.length) ' ') ++ ds
    | none => ds

/-- Python `template % mapping` restricted to the `%(key)…d` conversions the
template pipeline produces (plus `%%`); other conversions raise. -/
def pyFormatMapAux (fuel : Nat) (m : String → Except String Int) (l : List Char) :
    Except String (List Char) :=
  match fuel with
  | 0 => Except.error "format: out of fuel"
  | fuel + 1 =>
    match l with
    | [] => Except.ok []
    | '%' :: rest =>
      match rest with
      | '%' :: rest2 => (pyFormatMapAux fuel m rest2).map (fun t => '%' :: t)
      | '(' :: rest2 =>
        (match rest2.span (fun c => c ≠ ')') with
         | (_, []) => Except.error "ValueError: incomplete format key"
         | (key, _ :: rest3) =>
           let spec := rest3.takeWhile Char.isDigit
           match rest3.dropWhile Char.isDigit with
           | 'd' :: rest4 =>
             match m (String.mk key) with
             | Except.ok v => (pyFormatMapAux fuel m rest4).map (fun t => renderD spec v ++ t)
             | Except.error e => Except.error e
           | _ => Except.error "ValueError: unsupported format character")
      | _ => Except.error "ValueError: unsupported format character"
    | c :: cs => (pyFormatMapAux fuel m cs).map (fun t => c :: t)

/-- String-level `template % mapping`. -/
def pyFormatMap (s : String) (m : String → Except String Int) : Except String String :=
  (pyFormatMapAux (s.data.length + 1) m s.data).map String.mk

/-! ## DASH (MPD): document model and segment info -/

/-- An `<S>` timeline element (attributes pre-parsed; `int(...)` of malformed
numerals is out of scope). -/
structure SElem where
  t : Option Int := none
  d : Option Int := none
  r : Option Int := none
deriving DecidableEq, Repr

/-- Internal timeline entry of `ms_info['s']`. -/
structure SEntryI where
  t : Int := 0
  d : Int := 0
  r : Int := 0
deriving DecidableEq, Repr

/-- An `<Initialization>` element. -/
structure InitE where
  sourceURL : Option String := none
deriving DecidableEq, Repr

/-- Attributes/children of `SegmentList`/`SegmentTemplate` read by
`extract_common`. -/
structure SegCommonAttrs where
  timeline : Option (List SElem) := none
  startNumber : Option Int := none
  timescale : Option Int := none
  duration : Option Int := none
deriving DecidableEq, Repr

/-- A `<SegmentURL>` element. -/
structure SegURLE where
  media : Option String := none
deriving DecidableEq, Repr

/-- A `<SegmentList>` element. -/
structure SegListE where
  common : SegCommonAttrs := {}
  initialization : Option InitE := none
  segmentURLs : List SegURLE := []
deriving DecidableEq, Repr

/-- A `<SegmentTemplate>` element. -/
structure SegTmplE where
  common : SegCommonAttrs := {}
  media : Option String := none
  initializationAttr : Option String := none
  initialization : Option InitE := none
deriving DecidableEq, Repr

/-- Segment-describing children of a Period/AdaptationSet/Representation. -/
structure SegHolder where
  segmentList : Option SegListE := none
  segmentTemplate : Option SegTmplE := none
deriving DecidableEq, Repr

/-- A `<BaseURL>` element (text plus the YouTube `contentLength` attribute
the source reads). -/
structure BaseURLE where
  text : String := ""
  contentLength : Option String := none
deriving DecidableEq, Repr

/-- Representation/AdaptationSet attributes read by the source. -/
structure RepAttrs where
  id : Option String := none
  mimeType : Option String := none
  lang : Option String := none
  codecs : Option String := none
  width : Option String := none
  height : Option String := none
  frameRate : Option String := none
  audioSamplingRate : Option String := none
  bandwidth : Option String := none
deriving DecidableEq, Repr

/-- A `<Representation>` element. -/
structure RepE where
  attrib : RepAttrs := {}
  contentProtection : Bool := false
  baseURL : Option BaseURLE := none
  seg : SegHolder := {}
deriving DecidableEq, Repr

/-- An `<AdaptationSet>` element. -/
structure AdSetE where
  attrib : RepAttrs := {}
  contentProtection : Bool := false
  baseURL : Option BaseURLE := none
  seg : SegHolder := {}
  representations : List RepE := []
deriving DecidableEq, Repr

/-- A `<Period>` element (`@duration` modelled as the pre-parsed
`parse_duration` value). -/
structure PeriodE where
  duration : Option Rat := none
  baseURL : Option BaseURLE := none
  seg : SegHolder := {}
  adaptationSets : List AdSetE := []
deriving DecidableEq, Repr

/-- An MPD document (`@type`, `@mediaPresentationDuration` pre-parsed). -/
structure MPDDoc where
  typ : Option String := none
  mediaPresentationDuration : Option Rat := none
  baseURL : Option BaseURLE := none
  periods : List PeriodE := []
deriving DecidableEq, Repr

/-- The inherited segment-addressing context `ms_info`. -/
structure MsInfo where
  start_number : Int := 1
  timescale : Int := 1
  segment_duration : Option Int := none
  total_number : Option Int := none
  s : Option (List SEntryI) := none
  segment_urls : Option (List String) := none
  media_template : Option String := none
  initialization_url : Option String := none
deriving DecidableEq, Repr

/-- Translation of `extract_common` inside `extract_multisegment_info`:
timeline entries (`@d` mandatory), `startNumber`, `timescale`, `duration`. -/
def extract_common (src : SegCommonAttrs) (ms0 : MsInfo) : Except String MsInfo := do
  let ms ←
    match src.timeline with
    | some sElems =>
      if sElems ≠ [] then do
        let entries ← sElems.mapM (fun s =>
          match s.d with
          | some d => Except.ok ({ t := s.t.getD 0, d := d, r := s.r.getD 0 } : SEntryI)
          | none => Except.error "KeyError: d")
        Except.ok { ms0 with
          total_number := some (entries.foldl (fun acc e => acc + 1 + e.r) 0)
          s := some entries }
      else Except.ok ms0
    | none => Except.ok ms0
  let ms := match src.startNumber with
    | some n => { ms with start_number := n }
    | none => ms
  let ms := match src.timescale with
    | some n => { ms with timescale := n }
    | none => ms
  let ms := match src.duration with
    | some n => { ms with segment_duration := some n }
    | none => ms
  Except.ok ms

/-- Translation of `extract_Initialization` (`@sourceURL` mandatory on a
present element). -/
def extract_initialization_info (init : Option InitE) (ms : MsInfo) : Except String MsInfo :=
  match init with
  | some ie =>
    match ie.sourceURL with
    | some u => Except.ok { ms with initialization_url := some u }
    | none => Except.error "KeyError: sourceURL"
  | none => Except.ok ms

/-- Translation of `extract_multisegment_info`: `SegmentList` wins over
`SegmentTemplate`; child data overrides the inherited context. -/
def extract_multisegment_info (e : SegHolder) (parent : MsInfo) : Except String MsInfo := do
  match e.segmentList with
  | some sl => do
    let ms ← extract_common sl.common parent
    let ms ← extract_initialization_info sl.initialization ms
    if sl.segmentURLs ≠ [] then do
      let urls ← sl.segmentURLs.mapM (fun su =>
        match su.media with
        | some u => Except.ok u
        | none => Except.error "KeyError: media")
      Except.ok { ms with segment_urls := some urls }
    else Except.ok ms
  | none =>
    match e.segmentTemplate with
    | some st => do
      let ms ← extract_common st.common parent
      let ms := match st.media with
        | some m => if m ≠ "" then { ms with media_template := some m } else ms
        | none => ms
      match st.initializationAttr with
      | some i =>
        if i ≠ "" then Except.ok { ms with initialization_url := some i }
        else extract_initialization_info st.initialization ms
      | none => extract_initialization_info st.initialization ms
    | none => Except.ok parent

/-! ## DASH (MPD): fragment construction and the main walk -/

/-- Python `'%s' % x` where `x` may be `None`. -/
def pyStrOptStr (s : Option String) : String :=
  match s with
  | none => "None"
  | some s => s

/-- Python `a or b` on optional rationals (`0` is falsy). -/
def pyOrRat (a b : Option Rat) : Option Rat :=
  match a with
  | some x => if x ≠ 0 then some x else b
  | none => b

/-- The substitution mapping handed to a media template in the timeline
branch (`{'Time': …, 'Bandwidth': …, 'Number': …}`); a `None` bandwidth
raises when (and only when) the template demands it. -/
def dashTemplateMap (time number : Int) (bandwidth : Option Int) : String → Except String Int :=
  fun key =>
    if key = "Time" then Except.ok time
    else if key = "Number" then Except.ok number
    else if key = "Bandwidth" then
      match bandwidth with
      | some b => Except.ok b
      | none => Except.error "TypeError: %d format: a number is required, not NoneType"
    else Except.error "KeyError"

/-- The `add_segment_url` closure: one fragment from the current cursor. -/
def dash_add_segment_url (media_template : String) (bandwidth : Option Int) (timescale : Int)
    (time number d : Int) : Except String Fragment := do
  let url ← pyFormatMap media_template (dashTemplateMap time number bandwidth)
  Except.ok { url := some url, duration := float_or_noneI (some d) timescale }

/-- Translation of the `$Number*$`/`$Time$`-with-S-list loop (source lines
1723–1748): each timeline entry `{t, d, r}` contributes `1 + r` fragments;
a non-zero `t` resets the running cursor (`s.get('t') or segment_time`),
which otherwise accumulates `d` after every emitted fragment. -/
def dash_timeline_fragments (media_template : String) (bandwidth : Option Int)
    (timescale : Int) (start_number : Int) (sList : List SEntryI) :
    Except String (List Fragment) := do
  let res ← sList.foldlM
    (fun (st : List Fragment × Int × Int) s => do
      let frags := st.1
      let time0 := st.2.1
      let number0 := st.2.2
      let time := if s.t ≠ 0 then s.t else time0
      let fr ← dash_add_segment_url media_template bandwidth timescale time number0 s.d
      let res2 ← (List.range s.r.toNat).foldlM
        (fun (st2 : List Fragment × Int × Int) _ => do
          let time2 := st2.2.1 + s.d
          let fr2 ← dash_add_segment_url media_template bandwidth timescale time2 st2.2.2 s.d
          Except.ok (st2.1 ++ [fr2], time2, st2.2.2 + 1))
        (frags ++ [fr], time, number0 + 1)
      Except.ok (res2.1, res2.2.1 + s.d, res2.2.2))
    (([] : List Fragment), (0 : Int), start_number)
  Except.ok res.1

/-- Translation of the fixed-duration `$Number$` branch (source lines
1705–1718): compute `total_number` from `ceil(period_duration /
segment_duration)` when the timeline did not supply it, then emit uniformly
numbered fragments. -/
def dash_number_fragments (media_template : String) (bandwidth : Option Int)
    (ms : MsInfo) (period_duration : Option Rat) : Except String (List Fragment) := do
  let res ←
    match ms.total_number with
    | none => do
      let sdRaw ←
        match ms.segment_duration with
        | some sd => Except.ok sd
        | none => Except.error "KeyError: segment_duration"
      let sd := Rat.divInt sdRaw ms.timescale
      let pd ←
        match period_duration with
        | some p => Except.ok p
        | none => Except.error "TypeError: float() argument must not be None"
      Except.ok ((qdiv pd sd).ceil, some sd)
    | some t => Except.ok (t, (none : Option Rat))
  let total := res.1
  let segment_duration := res.2
  (List.range total.toNat).mapM (fun i => do
    let url ← pyFormatMap media_template
      (dashTemplateMap 0 (ms.start_number + i) bandwidth |> fun f key =>
        if key = "Time" then Except.error "KeyError: Time" else f key)
    Except.ok ({ url := some url, duration := segment_duration } : Fragment))

/-- Translation of the `SegmentList`-with-timeline pairing (source lines
1749–1762).  NB the source initialises `s_num = 0` and never advances it, and
appends `r + 1` fragments per *URL*; translated faithfully. -/
def dash_segment_urls_fragments (segment_urls : List String) (sList : List SEntryI)
    (timescale : Int) : Except String (List Fragment) :=
  segment_urls.foldlM
    (fun frags segment_url => do
      let s ←
        match sList.get? 0 with
        | some s => Except.ok s
        | none => Except.error "IndexError: list index out of range"
      Except.ok (frags ++ (List.range (s.r.toNat + 1)).map
        (fun _ => ({ url := some segment_url,
                     duration := float_or_noneI (some s.d) timescale } : Fragment))))
    []

/-- The fields of the freshly built per-representation dict `f` (its key set
is fixed, so Python `dict.update(f)` overwrites exactly these). -/
structure MpdF where
  format_id : Option String := none
  url : String := ""
  manifest_url : Option String := none
  ext : Option String := none
  width : Option Rat := none
  height : Option Rat := none
  tbr : Option Rat := none
  asr : Option Rat := none
  fps : Option Rat := none
  language : Option String := none
  format_note : Option String := none
  filesize : Option Rat := none
  codecs : Option (Option String × Option String) := none
  fragments : Option (List Fragment) := none
deriving DecidableEq, Repr

/-- Python `existing.update(f)` for the per-representation dict: overwrite
the core keys, the codec keys when `parse_codecs` supplied them, and
`fragments`/`protocol` when the fragments branch ran. -/
def MpdF.applyTo (fnew : MpdF) (base : Fmt) : Fmt :=
  { base with
    format_id := fnew.format_id
    url := some fnew.url
    manifest_url := fnew.manifest_url
    ext := fnew.ext
    width := fnew.width
    height := fnew.height
    tbr := fnew.tbr
    asr := fnew.asr
    fps := fnew.fps
    language := fnew.language
    format_note := fnew.format_note
    filesize := fnew.filesize
    vcodec := match fnew.codecs with | some vc => vc.1 | none => base.vcodec
    acodec := match fnew.codecs with | some vc => vc.2 | none => base.acodec
    fragments := match fnew.fragments with | some fr => some fr | none => base.fragments
    protocol := if fnew.fragments.isSome then some "http_dash_segments" else base.protocol }

/-- Update the first list element satisfying the predicate (Python finds the
first matching format with `next(...)` and mutates it). -/
def updateFirst (p : Fmt → Bool) (g : Fmt → Fmt) : List Fmt → List Fmt
  | [] => []
  | f :: fs => if p f then g f :: fs else f :: updateFirst p g fs

/-- Translation of the `BaseURL` resolution (source lines 1664–1674): walk
Representation → AdaptationSet → Period → MPD prepending text until an
absolute URL forms, then join with the manifest base URL. -/
def resolve_base_url (nodes : List (Option BaseURLE)) (mpd_base_url : String) : String :=
  let rec go (remaining : List (Option BaseURLE)) (acc : String) : String :=
    match remaining with
    | [] => acc
    | n :: rest =>
      match n with
      | some b =>
        let acc2 := b.text ++ acc
        if isHttpAbs acc2 then acc2 else go rest acc2
      | none => go rest acc
  let bu := go nodes ""
  if mpd_base_url ≠ "" ∧ ¬ isHttpAbs bu then
    (if ¬ (mpd_base_url.data.getLast? = some '/') ∧ ¬ (bu.data.head? = some '/') then
      mpd_base_url ++ "/" else mpd_base_url) ++ bu
  else bu

/-- Translation of the per-Representation body of `_parse_mpd_formats`
(source lines 1653–1790): attribute merge, mandatory `mimeType`, descriptor
construction, the three fragment branches, and the merge-or-append step
keyed on `fo['format_id'] == representation_id`. -/
def mpd_process_representation (mpd_id : Option String) (mpd_base_url : String)
    (mpd_url : Option String) (formats_dict : List (String × Fmt))
    (period_duration : Option Rat) (period : PeriodE) (adaptation_set : AdSetE)
    (adSetMs : MsInfo) (mpdBase : Option BaseURLE) (representation : RepE)
    (formats : List Fmt) : Except String (List Fmt) := do
  if representation.contentProtection then Except.ok formats
  else do
    let a := adaptation_set.attrib
    let rA := representation.attrib
    let attrib : RepAttrs :=
      { id := rA.id <|> a.id
        mimeType := rA.mimeType <|> a.mimeType
        lang := rA.lang <|> a.lang
        codecs := rA.codecs <|> a.codecs
        width := rA.width <|> a.width
        height := rA.height <|> a.height
        frameRate := rA.frameRate <|> a.frameRate
        audioSamplingRate := rA.audioSamplingRate <|> a.audioSamplingRate
        bandwidth := rA.bandwidth <|> a.bandwidth }
    let mime_type ←
      match attrib.mimeType with
      | some m => Except.ok m
      | none => Except.error "KeyError: mimeType"
    let content_type := (strSplitChar mime_type '/').headD ""
    if content_type = "text" then Except.ok formats
    else if content_type = "video" ∨ content_type = "audio" then do
      let base_url := resolve_base_url
        [representation.baseURL, adaptation_set.baseURL, period.baseURL, mpdBase] mpd_base_url
      let representation_id := attrib.id
      let lang := attrib.lang
      let filesize := int_or_none (representation.baseURL.bind (fun b => b.contentLength)) 1
      let f : MpdF :=
        { format_id :=
            match mpd_id with
            | some m =>
              if m ≠ "" then some (m ++ "-" ++ pyStrOptStr representation_id)
              else representation_id
            | none => representation_id
          url := base_url
          manifest_url := mpd_url
          ext := some (mimetype2ext mime_type)
          width := (int_or_none attrib.width 1).map (fun n => q n 1)
          height := (int_or_none attrib.height 1).map (fun n => q n 1)
          tbr := (int_or_none attrib.bandwidth 1000).map (fun n => q n 1)
          asr := (int_or_none attrib.audioSamplingRate 1).map (fun n => q n 1)
          fps := (int_or_none attrib.frameRate 1).map (fun n => q n 1)
          language :=
            if lang = some "mul" ∨ lang = some "und" ∨ lang = some "zxx" ∨ lang = some "mis"
            then none else lang
          format_note := some ("DASH " ++ content_type)
          filesize := filesize.map (fun n => q n 1)
          codecs := parse_codecs attrib.codecs }
      let rmi ← extract_multisegment_info representation.seg adSetMs
      let bandwidth := int_or_none attrib.bandwidth 1
      let fragmentsOpt ←
        if rmi.segment_urls = none ∧ rmi.media_template ≠ none then do
          let mt0 := rmi.media_template.getD ""
          let repIdStr ←
            match representation_id with
            | some s => Except.ok s
            | none => Except.error "TypeError: replace() argument 2 must be str, not None"
          let mt := strReplace mt0 "$RepresentationID$" repIdStr
          let mt := dashSubPlain mt
          let mt := dashSubFmt mt
          /- Source line 1701 evaluates `media_template.replace('$$', '$')` but discards the
             result (no assignment), so `$$` sequences survive into the emitted URLs; the
             translation therefore performs no `$$` replacement. -/
          if strContains mt "%(Number" ∧ rmi.s = none then do
            let frs ← dash_number_fragments mt bandwidth rmi period_duration
            Except.ok (some frs)
          else do
            let sList ←
              match rmi.s with
              | some sl => Except.ok sl
              | none => Except.error "KeyError: s"
            let frs ← dash_timeline_fragments mt bandwidth rmi.timescale rmi.start_number sList
            Except.ok (some frs)
        else if rmi.segment_urls ≠ none ∧ rmi.s ≠ none then do
          let frs ← dash_segment_urls_fragments (rmi.segment_urls.getD [])
            (rmi.s.getD []) rmi.timescale
          Except.ok (some frs)
        else Except.ok none
      let f ←
        match fragmentsOpt with
        | some frs => do
          let res ←
            match rmi.initialization_url with
            | some iu0 => do
              let repIdStr ←
                match representation_id with
                | some s => Except.ok s
                | none => Except.error "TypeError: replace() argument 2 must be str, not None"
              let iu := strReplace iu0 "$RepresentationID$" repIdStr
              let iu := strReplace iu "$Bandwidth$" (pyStrOptInt bandwidth)
              let url2 := if f.url = "" then iu else f.url
              Except.ok (url2, ([({ url := some iu } : Fragment)] : List Fragment))
            | none => Except.ok (f.url, ([] : List Fragment))
          let allFrags := (res.2 ++ frs).map
            (fun fr => ({ fr with url := urljoinU (some base_url) fr.url } : Fragment))
          Except.ok { f with url := res.1, fragments := some allFrags }
        | none => Except.ok f
      match formats.find? (fun fo => fo.format_id = representation_id) with
      | some _ =>
        Except.ok (updateFirst (fun fo => fo.format_id = representation_id) (f.applyTo) formats)
      | none =>
        let full_base : Fmt :=
          match representation_id with
          | some rid => ((formats_dict.find? (fun kv => kv.1 = rid)).map (fun kv => kv.2)).getD {}
          | none => {}
        Except.ok (formats ++ [f.applyTo full_base])
    else
      -- unknown MIME top-level category: non-fatal warning, no descriptor
      Except.ok formats

/-- Translation of `_parse_mpd_formats`: empty for `type="dynamic"`,
otherwise the Period → AdaptationSet → Representation walk with DRM
subtrees skipped. -/
def parse_mpd_formats (mpd : MPDDoc) (mpd_id : Option String) (mpd_base_url : String)
    (formats_dict : List (String × Fmt)) (mpd_url : Option String) :
    Except String (List Fmt) :=
  if mpd.typ = some "dynamic" then Except.ok []
  else
    mpd.periods.foldlM
      (fun formats period => do
        let period_duration := pyOrRat period.duration mpd.mediaPresentationDuration
        let periodMs ← extract_multisegment_info period.seg { start_number := 1, timescale := 1 }
        period.adaptationSets.foldlM
          (fun formats adaptation_set =>
            if adaptation_set.contentProtection then Except.ok formats
            else do
              let adSetMs ← extract_multisegment_info adaptation_set.seg periodMs
              adaptation_set.representations.foldlM
                (fun formats representation =>
                  mpd_process_representation mpd_id mpd_base_url mpd_url formats_dict
                    period_duration period adaptation_set adSetMs mpd.baseURL
                    representation formats)
                formats)
          formats)
      []

/-! ## HDS (F4M) parser

Translation of `_parse_f4m_formats` (source lines 1075–1173).  The recursive
per-media extractions (`_extract_f4m_formats` / `_extract_m3u8_formats`),
which go through the page fetcher, are supplied as collaborator functions as
in the spec's external-interface model. -/

/-- Python `a or b` on optional ints (`0` is falsy). -/
def pyOrInt (a b : Option Int) : Option Int :=
  match a with
  | some x => if x ≠ 0 then some x else b
  | none => b

/-- An F4M `<media>` element (attributes the source reads; `drm` models the
presence of a `drmAdditionalHeaderId`/`drmAdditionalHeaderSetId` attribute). -/
structure F4MMedia where
  url : Option String := none
  href : Option String := none
  bitrate : Option String := none
  width : Option String := none
  height : Option String := none
  drm : Bool := false
deriving DecidableEq, Repr

/-- An F4M manifest document.  `pv20` is the text of the
`{f4m/1.0}pv-2.0` element when present (an element with `None` text, on
which Python raises, is out of scope); `media10`/`media20` are the `<media>`
children in the 1.0 and 2.0 namespaces; `bootstrapInfo` is element presence. -/
structure F4MDoc where
  pv20 : Option String := none
  media10 : List F4MMedia := []
  media20 : List F4MMedia := []
  baseURL : Option String := none
  bootstrapInfo : Bool := false
  mimeType : Option String := none
deriving Repr

/-- State threaded through the F4M media loop: the accumulated formats and
the current `manifest_url` variable (which the loop body reassigns). -/
structure F4MLoopState where
  formats : List Fmt := []
  manifest_url : String := ""

/-- Python `'/'.join(u.split('/')[:-1])`. -/
def dirnameSlash (u : String) : String :=
  joinSep "/" ((strSplitChar u '/').dropLast)

/-- One iteration of the F4M media loop (source lines 1113–1172). -/
def f4m_media_step (fetchF4M : String → List Fmt) (fetchM3u8 : String → List Fmt)
    (preference : Option Rat) (f4m_id : Option String) (manifest_version_20 : Bool)
    (base_url : Option String) (bootstrap_info : Bool) (vcodec : Option String)
    (st : F4MLoopState) (iAndMedia : Nat × F4MMedia) : F4MLoopState :=
  let i := iAndMedia.1
  let media_el := iAndMedia.2
  let tbr := int_or_none media_el.bitrate 1
  let width := int_or_none media_el.width 1
  let height := int_or_none media_el.height 1
  let format_id := joinFilterDash [f4m_id,
    some (match tbr with
      | none => pyStrInt (Int.ofNat i)
      | some t => pyStrInt t)]
  if ¬ bootstrap_info then
    let media_url :=
      (if manifest_version_20 then media_el.href else none) <|> media_el.url
    match media_url with
    | none => st
    | some mu =>
      if mu = "" then st
      else
        let manifest_url2 :=
          if isHttpAbs mu then mu
          else ((match base_url with
                 | some b => if b ≠ "" then b else dirnameSlash st.manifest_url
                 | none => dirnameSlash st.manifest_url) ++ "/" ++ mu)
        let ext := determine_ext (some manifest_url2)
        if ext = "f4m" then
          let f4m_formats := fetchF4M manifest_url2
          let f4m_formats :=
            match f4m_formats with
            | [f] =>
              [{ f with
                  tbr := pyOrRat f.tbr (tbr.map (fun n => q n 1))
                  width := pyOrRat f.width (width.map (fun n => q n 1))
                  height := pyOrRat f.height (height.map (fun n => q n 1))
                  format_id :=
                    match tbr with
                    | some t => if t ≠ 0 then some format_id else f.format_id
                    | none => f.format_id
                  vcodec := vcodec }]
            | _ => f4m_formats
          { st with formats := st.formats ++ f4m_formats, manifest_url := manifest_url2 }
        else if ext = "m3u8" then
          { st with formats := st.formats ++ fetchM3u8 manifest_url2,
                    manifest_url := manifest_url2 }
        else
          { formats := st.formats ++
              [{ format_id := some format_id
                 url := some manifest_url2
                 manifest_url := some manifest_url2
                 ext := none
                 tbr := tbr.map (fun n => q n 1)
                 width := width.map (fun n => q n 1)
                 height := height.map (fun n => q n 1)
                 vcodec := vcodec
                 preference := preference }]
            manifest_url := manifest_url2 }
  else
    { st with formats := st.formats ++
        [{ format_id := some format_id
           url := some st.manifest_url
           manifest_url := some st.manifest_url
           ext := some "flv"
           tbr := tbr.map (fun n => q n 1)
           width := width.map (fun n => q n 1)
           height := height.map (fun n => q n 1)
           vcodec := vcodec
           preference := preference }] }

/-- Translation of `_parse_f4m_formats`: refuse Akamai
player-verification-challenge manifests whose text carries a non-blank
challenge before the first `;`, drop DRM media (`remove_encrypted_media`,
modelled from the spec), then walk the media entries. -/
def f4m_pv_refused (pv20 : Option String) : Bool :=
  match pv20 with
  | some txt =>
    strContains txt ";" &&
      decide (pyStrip (String.mk (txt.data.takeWhile (fun c => c ≠ ';'))) ≠ "")
  | none => false

def parse_f4m_formats (fetchF4M : String → List Fmt) (fetchM3u8 : String → List Fmt)
    (manifest : F4MDoc) (manifest_url : String) (preference : Option Rat)
    (f4m_id : Option String) : List Fmt :=
  if f4m_pv_refused manifest.pv20 then []
  else
    let manifest_version_20 := manifest.media10 = []
    let media_nodes := if manifest.media10 ≠ [] then manifest.media10 else manifest.media20
    let media_nodes := media_nodes.filter (fun m => ¬ m.drm)
    if media_nodes = [] then []
    else
      let base_url := manifest.baseURL.map pyStrip
      let bootstrap_info := manifest.bootstrapInfo
      let vcodec : Option String :=
        match manifest.mimeType with
        | some m => if beginsWith "audio/".data m.data then some "none" else none
        | none => none
      (media_nodes.enum.foldl
        (f4m_media_step fetchF4M fetchM3u8 preference f4m_id manifest_version_20
          base_url bootstrap_info vcodec)
        { formats := [], manifest_url := manifest_url }).formats

/-! ## Smooth Streaming (ISM) parser

Translation of `_parse_ism_formats` (source lines 1806–1890). -/

/-- A Python number that is either an `int` or a `float` (the ISM fragment
time cursor starts as an int and becomes a float after true division). -/
inductive PyNum where
  | pint (n : Int)
  | pfloat (v : Rat)
deriving DecidableEq, Repr

/-- Numeric value of a `PyNum`. -/
def PyNum.val : PyNum → Rat
  | .pint n => q n 1
  | .pfloat v => v

/-- Python `+` (int stays int, float contaminates). -/
def PyNum.add : PyNum → PyNum → PyNum
  | .pint a, .pint b => .pint (a + b)
  | a, b => .pfloat (qadd a.val b.val)

/-- Python `-` with an integer on the left. -/
def PyNum.subFromInt (a : Int) : PyNum → PyNum
  | .pint b => .pint (a - b)
  | .pfloat b => .pfloat (qsub (q a 1) b)

/-- Python `/` (true division, always float).  Exact rationals stand in for
IEEE floats: every division a claim exercises is exactly representable. -/
def PyNum.divByInt (a : PyNum) (b : Int) : PyNum :=
  .pfloat (qdiv a.val (q b 1))

/-- Python `str(...)` of an int-or-float; an integral float renders with a
trailing `.0` (non-integral float repr is not modelled exactly: there
Python's binary-float repr itself is inexact). -/
def PyNum.str : PyNum → String
  | .pint n => toString n
  | .pfloat v => if v.den = 1 then toString v.num ++ ".0" else toString v.num ++ "/" ++ toString v.den

/-- A `<c>` chunk element.  Standard ISM chunks are leaf elements: the
source's `stream_fragment[stream_fragment_index + 1]` indexes the *current
chunk's children*, which therefore always raises `IndexError`. -/
structure IsmChunk where
  t : Option Int := none
  d : Option Int := none
  r : Option Int := none
deriving DecidableEq, Repr

/-- A `<QualityLevel>` element. -/
structure IsmTrack where
  fourCC : Option String := none
  bitrate : Option Int := none
  maxWidth : Option Int := none
  maxHeight : Option Int := none
  samplingRate : Option Int := none
  codecPrivateData : Option String := none
  channels : Option Int := none
  bitsPerSample : Option Int := none
  nalUnitLengthField : Option Int := none
deriving DecidableEq, Repr

/-- A `<StreamIndex>` element. -/
structure IsmStream where
  typ : Option String := none
  url : Option String := none
  timescale : Option Int := none
  name : Option String := none
  qualityLevels : List IsmTrack := []
  chunks : List IsmChunk := []
deriving DecidableEq, Repr

/-- An ISM manifest document. -/
structure IsmDoc where
  isLive : Option String := none
  protection : Bool := false
  durationAttr : Option Int := none
  timeScale : Option Int := none
  streams : List IsmStream := []
deriving DecidableEq, Repr

/-- Substitute `{start time}`/`{start_time}` into the track URL pattern. -/
def ismSubstTime (pattern : String) (timeStr : String) : String :=
  strReplace (strReplace pattern "{start time}" timeStr) "{start_time}" timeStr

/-- Translation of the chunk loop (source lines 1835–1855): an absent (or
zero) chunk duration is derived from `(next_fragment_time − time) / repeat`,
where `next_fragment_time` comes from indexing the current chunk's children
— always an `IndexError` on leaf chunks — so the `except` branch substitutes
the stream-level `Duration`; each repetition emits one fragment and advances
the cursor. -/
def ism_track_fragments (track_url_pattern : String) (duration : Int)
    (stream_timescale : Int) (chunks : List IsmChunk) : List Fragment :=
  (chunks.foldl
    (fun (st : List Fragment × PyNum) c =>
      let time0 := st.2
      let time :=
        match int_or_noneI c.t 1 with
        | some t => if t ≠ 0 then PyNum.pint t else time0
        | none => time0
      let fragment_repeat :=
        match int_or_noneI c.r 1 with
        | some r => if r ≠ 0 then r else 1
        | none => 1
      let chunkDuration : PyNum :=
        match int_or_noneI c.d 1 with
        | some d =>
          if d ≠ 0 then PyNum.pint d
          else (PyNum.subFromInt duration time).divByInt fragment_repeat
        | none => (PyNum.subFromInt duration time).divByInt fragment_repeat
      (List.range fragment_repeat.toNat).foldl
        (fun (st2 : List Fragment × PyNum) _ =>
          (st2.1 ++ [{ url := some (ismSubstTime track_url_pattern st2.2.str)
                       duration := some ((chunkDuration.divByInt stream_timescale).val) }],
           st2.2.add chunkDuration))
        (st.1, time))
    ([], PyNum.pint 0)).1

/-- Translation of the per-`QualityLevel` body (source lines 1821–1889). -/
def ism_process_track (ism_url : String) (ism_id : Option String) (duration : Int)
    (stream_type : String) (url_pattern : String) (stream_timescale : Int)
    (stream_name : Option String) (chunks : List IsmChunk) (formats : List Fmt)
    (track : IsmTrack) : Except String (List Fmt) := do
  let fourcc := track.fourCC
  if ¬ (fourcc = some "H264" ∨ fourcc = some "AVC1" ∨ fourcc = some "AACL") then
    -- unsupported codec: non-fatal warning, skip
    Except.ok formats
  else do
    let bitrate ←
      match track.bitrate with
      | some b => Except.ok b
      | none => Except.error "KeyError: Bitrate"
    let tbr := Int.fdiv bitrate 1000
    let width := int_or_noneI track.maxWidth 1
    let height := int_or_noneI track.maxHeight 1
    let sampling_rate := int_or_noneI track.samplingRate 1
    let track_url_pattern :=
      strReplace (strReplace url_pattern "{bitrate}" (pyStrInt bitrate))
        "{Bitrate}" (pyStrInt bitrate)
    let track_url_pattern := pyUrljoin ism_url track_url_pattern
    let fragments := ism_track_fragments track_url_pattern duration stream_timescale chunks
    let format_id := joinFilterDash [ism_id, stream_name, some (pyStrInt tbr)]
    Except.ok (formats ++
      [{ format_id := some format_id
         url := some ism_url
         manifest_url := some ism_url
         ext := some (if stream_type = "video" then "ismv" else "isma")
         width := width.map (fun n => q n 1)
         height := height.map (fun n => q n 1)
         tbr := some (q tbr 1)
         asr := sampling_rate.map (fun n => q n 1)
         vcodec := if stream_type = "audio" then some "none" else fourcc
         acodec := if stream_type = "video" then some "none" else fourcc
         protocol := some "ism"
         fragments := some fragments
         download_params := some
           { duration := duration
             timescale := stream_timescale
             width := (pyOrInt width (some 0)).getD 0
             height := (pyOrInt height (some 0)).getD 0
             fourcc := fourcc.getD ""
             codec_private_data := track.codecPrivateData
             sampling_rate := sampling_rate
             channels := some (track.channels.getD 2)
             bits_per_sample := some (track.bitsPerSample.getD 16)
             nal_unit_length_field := some (track.nalUnitLengthField.getD 4) } }])

/-- Translation of `_parse_ism_formats`: live or `Protection`-bearing
manifests yield no formats; `Duration` is mandatory; only `video`/`audio`
stream indexes and `H264`/`AVC1`/`AACL` FourCCs are supported. -/
def parse_ism_formats (ism : IsmDoc) (ism_url : String) (ism_id : Option String) :
    Except String (List Fmt) := do
  if ism.isLive = some "TRUE" ∨ ism.protection then Except.ok []
  else do
    let duration ←
      match ism.durationAttr with
      | some d => Except.ok d
      | none => Except.error "KeyError: Duration"
    let timescale := (pyOrInt (int_or_noneI ism.timeScale 1) (some 10000000)).getD 10000000
    ism.streams.foldlM
      (fun formats stream => do
        let stream_type := stream.typ.getD ""
        if ¬ (stream_type = "video" ∨ stream_type = "audio") then Except.ok formats
        else do
          let url_pattern ←
            match stream.url with
            | some u => Except.ok u
            | none => Except.error "KeyError: Url"
          let stream_timescale :=
            (pyOrInt (int_or_noneI stream.timescale 1) (some timescale)).getD timescale
          stream.qualityLevels.foldlM
            (ism_process_track ism_url ism_id duration stream_type url_pattern
              stream_timescale stream.name stream.chunks)
            formats)
      []


/-! ## Order lemmas for the composite sort key -/

/-- Unfolding of character comparison on cons cells. -/
theorem charListLe_cons_iff (a b : Char) (as bs : List Char) :
    charListLe (a :: as) (b :: bs) = true ↔
      (a.toNat < b.toNat ∨ (a.toNat = b.toNat ∧ charListLe as bs = true)) := by
  simp only [charListLe]
  split_ifs with h1 h2
  · simp [h1]
  · simp only [Bool.false_eq_true, false_iff]
    intro hcon
    rcases hcon with h | ⟨he, _⟩
    · exact h1 h
    · exact absurd h2 (by omega)
  · have he : a.toNat = b.toNat := by omega
    simp [he]

/-- Transitivity of character-list comparison. -/
theorem charListLe_trans :
    ∀ as bs cs : List Char, charListLe as bs = true → charListLe bs cs = true →
      charListLe as cs = true := by
  intro as
  induction as with
  | nil => intro bs cs _ _; rfl
  | cons a as1 ih =>
    intro bs cs h1 h2
    cases bs with
    | nil => exact absurd h1 (by simp [charListLe])
    | cons b bs1 =>
      cases cs with
      | nil => exact absurd h2 (by simp [charListLe])
      | cons c cs1 =>
        rw [charListLe_cons_iff] at h1 h2 ⊢
        rcases h1 with h1 | ⟨he1, hr1⟩
        · rcases h2 with h2 | ⟨he2, hr2⟩
          · exact Or.inl (lt_trans h1 h2)
          · exact Or.inl (by omega)
        · rcases h2 with h2 | ⟨he2, hr2⟩
          · exact Or.inl (by omega)
          · exact Or.inr ⟨by omega, ih bs1 cs1 hr1 hr2⟩

/-- Totality of character-list comparison. -/
theorem charListLe_total : ∀ as bs : List Char, charListLe as bs = true ∨ charListLe bs as = true := by
  intro as
  induction as with
  | nil => intro bs; exact Or.inl rfl
  | cons a as1 ih =>
    intro bs
    cases bs with
    | nil => exact Or.inr rfl
    | cons b bs1 =>
      rw [charListLe_cons_iff, charListLe_cons_iff]
      rcases Nat.lt_trichotomy a.toNat b.toNat with h | h | h
      · exact Or.inl (Or.inl h)
      · rcases ih bs1 with h2 | h2
        · exact Or.inl (Or.inr ⟨h, h2⟩)
        · exact Or.inr (Or.inr ⟨h.symm, h2⟩)
      · exact Or.inr (Or.inl h)

/-- `Rat.blt` is transitive (it is definitionally the strict order of `ℚ`). -/
theorem ratBlt_trans {a b c : Rat} (h1 : Rat.blt a b = true) (h2 : Rat.blt b c = true) :
    Rat.blt a c = true :=
  show a < c from lt_trans (show a < b from h1) (show b < c from h2)

/-- Rationals unrelated by `Rat.blt` in both directions are equal. -/
theorem ratBlt_eq {a b : Rat} (h1 : Rat.blt a b = false) (h2 : Rat.blt b a = false) : a = b :=
  le_antisymm (show a ≤ b from h2) (show b ≤ a from h1)

/-- `Rat.blt` is irreflexive. -/
theorem ratBlt_irrefl (a : Rat) : Rat.blt a a = false := by
  cases h : Rat.blt a a with
  | false => rfl
  | true => exact absurd (show a < a from h) (lt_irrefl a)

/-- Unfolding of strict lexicographic comparison on cons cells. -/
theorem lexListLt_cons_iff (a b : Rat) (as bs : List Rat) :
    lexListLt (a :: as) (b :: bs) = true ↔
      (Rat.blt a b = true ∨
        (Rat.blt a b = false ∧ Rat.blt b a = false ∧ lexListLt as bs = true)) := by
  simp only [lexListLt]
  split_ifs with h1 h2
  · simp [h1]
  · simp only [Bool.false_eq_true, false_iff]
    intro hcon
    rcases hcon with h | ⟨hab, hba, _⟩
    · exact h1 h
    · exact absurd h2 (by simp [hba])
  · have hab : Rat.blt a b = false := by
      cases h : Rat.blt a b with
      | false => rfl
      | true => exact absurd h h1
    have hba : Rat.blt b a = false := by
      cases h : Rat.blt b a with
      | false => rfl
      | true => exact absurd h h2
    simp [hab, hba]

/-- Strict lexicographic comparison is irreflexive. -/
theorem lexListLt_irrefl : ∀ as : List Rat, lexListLt as as = false := by
  intro as
  induction as with
  | nil => rfl
  | cons a as1 ih =>
    simp only [lexListLt, ratBlt_irrefl]
    simpa using ih

/-- Strict lexicographic comparison is transitive. -/
theorem lexListLt_trans :
    ∀ as bs cs : List Rat, lexListLt as bs = true → lexListLt bs cs = true →
      lexListLt as cs = true := by
  intro as
  induction as with
  | nil =>
    intro bs cs h1 h2
    cases bs with
    | nil => exact absurd h1 (by simp [lexListLt])
    | cons b bs1 =>
      cases cs with
      | nil => exact absurd h2 (by simp [lexListLt])
      | cons c cs1 => rfl
  | cons a as1 ih =>
    intro bs cs h1 h2
    cases bs with
    | nil => exact absurd h1 (by simp [lexListLt])
    | cons b bs1 =>
      cases cs with
      | nil => exact absurd h2 (by simp [lexListLt])
      | cons c cs1 =>
        rw [lexListLt_cons_iff] at h1 h2 ⊢
        rcases h1 with h1 | ⟨hab, hba, hr1⟩
        · rcases h2 with h2 | ⟨hbc, hcb, hr2⟩
          · exact Or.inl (ratBlt_trans h1 h2)
          · have : b = c := ratBlt_eq hbc hcb
            exact Or.inl (this ▸ h1)
        · have hab2 : a = b := ratBlt_eq hab hba
          subst hab2
          rcases h2 with h2 | ⟨hbc, hcb, hr2⟩
          · exact Or.inl h2
          · exact Or.inr ⟨hbc, hcb, ih bs1 cs1 hr1 hr2⟩

/-- Equal-length lists unrelated by `lexListLt` in both directions are
equal. -/
theorem lexListLt_eq :
    ∀ as bs : List Rat, as.length = bs.length → lexListLt as bs = false →
      lexListLt bs as = false → as = bs := by
  intro as
  induction as with
  | nil =>
    intro bs hlen _ _
    cases bs with
    | nil => rfl
    | cons b bs1 => simp at hlen
  | cons a as1 ih =>
    intro bs hlen h1 h2
    cases bs with
    | nil => simp at hlen
    | cons b bs1 =>
      simp only [lexListLt] at h1 h2
      cases hab : Rat.blt a b with
      | true => simp [hab] at h1
      | false =>
        cases hba : Rat.blt b a with
        | true => simp [hba] at h2
        | false =>
          have habeq : a = b := ratBlt_eq hab hba
          subst habeq
          simp only [hab, Bool.false_eq_true, if_false] at h1 h2
          have : as1 = bs1 := ih bs1 (by simpa using hlen) h1 h2
          rw [this]

/-- Transitivity of the composite key comparison (on equal-length numeric
parts). -/
theorem keyLe_trans {x y z : List Rat × String}
    (hxy : x.1.length = y.1.length) (hyz : y.1.length = z.1.length)
    (h1 : keyLe x y = true) (h2 : keyLe y z = true) : keyLe x z = true := by
  simp only [keyLe] at h1 h2 ⊢
  cases hxyLt : lexListLt x.1 y.1 with
  | true =>
    cases hyzLt : lexListLt y.1 z.1 with
    | true => simp [lexListLt_trans _ _ _ hxyLt hyzLt]
    | false =>
      cases hzy : lexListLt z.1 y.1 with
      | true => simp [hyzLt, hzy] at h2
      | false =>
        have heq : y.1 = z.1 := lexListLt_eq _ _ hyz hyzLt hzy
        simp [← heq, hxyLt]
  | false =>
    cases hyx : lexListLt y.1 x.1 with
    | true => simp [hxyLt, hyx] at h1
    | false =>
      have heq1 : x.1 = y.1 := lexListLt_eq _ _ hxy hxyLt hyx
      simp only [hxyLt, hyx, Bool.false_eq_true, if_false] at h1
      cases hyzLt : lexListLt y.1 z.1 with
      | true => simp [heq1, hyzLt]
      | false =>
        cases hzy : lexListLt z.1 y.1 with
        | true => simp [hyzLt, hzy] at h2
        | false =>
          have heq2 : y.1 = z.1 := lexListLt_eq _ _ hyz hyzLt hzy
          simp only [hyzLt, hzy, Bool.false_eq_true, if_false] at h2
          have hxz : x.1 = z.1 := heq1.trans heq2
          rw [hxz, lexListLt_irrefl]
          simpa using charListLe_trans _ _ _ h1 h2

/-- Totality of the composite key comparison (on equal-length numeric
parts). -/
theorem keyLe_total (x y : List Rat × String) :
    keyLe x y = true ∨ keyLe y x = true := by
  simp only [keyLe]
  cases hxy : lexListLt x.1 y.1 with
  | true => simp
  | false =>
    cases hyx : lexListLt y.1 x.1 with
    | true => simp
    | false =>
      simp only [Bool.false_eq_true, if_false]
      simpa using charListLe_total x.2.data y.2.data

/-- Every composite key has 15 numeric components. -/
theorem formats_key_len (preferFree : Bool) (f : Fmt) : (formats_key preferFree f).1.length = 15 :=
  rfl

/-- The format comparison is transitive. -/
theorem fmtLe_trans (preferFree : Bool) (a b c : Fmt) (h1 : fmtLe preferFree a b = true)
    (h2 : fmtLe preferFree b c = true) : fmtLe preferFree a c = true :=
  keyLe_trans (by rw [formats_key_len, formats_key_len]) (by rw [formats_key_len, formats_key_len])
    h1 h2

/-- The format comparison is total. -/
theorem fmtLe_total (preferFree : Bool) (a b : Fmt) :
    fmtLe preferFree a b = true ∨ fmtLe preferFree b a = true :=
  keyLe_total _ _

/-- A list's optional last element is a member. -/
theorem mem_of_getLast_opt {α : Type} :
    ∀ (l : List α) (g : α), l.getLast? = some g → g ∈ l := by
  intro l
  induction l with
  | nil => intro g hg; simp at hg
  | cons a t ih =>
    intro g hg
    cases t with
    | nil =>
      simp only [List.getLast?_singleton, Option.some.injEq] at hg
      simp [hg]
    | cons b t2 =>
      rw [List.getLast?_cons_cons] at hg
      exact List.mem_cons_of_mem a (ih g hg)

/-- In a `Pairwise`-sorted list, every element is related to the last one. -/
theorem pairwise_rel_getLast {α : Type} (r : α → α → Prop) (hrefl : ∀ a, r a a) :
    ∀ l : List α, l.Pairwise r → ∀ x ∈ l, ∀ g, l.getLast? = some g → r x g := by
  intro l
  induction l with
  | nil => intro _ x hx; simp at hx
  | cons a t ih =>
    intro hp x hx g hg
    cases t with
    | nil =>
      simp only [List.mem_singleton] at hx
      simp only [List.getLast?_singleton, Option.some.injEq] at hg
      subst hx; subst hg
      exact hrefl x
    | cons b t2 =>
      rw [List.getLast?_cons_cons] at hg
      rcases List.mem_cons.mp hx with rfl | hx2
      · exact (List.pairwise_cons.mp hp).1 g (mem_of_getLast_opt _ g hg)
      · exact ih (List.pairwise_cons.mp hp).2 x hx2 g hg

/-- Asymmetry of `Rat.blt`. -/
theorem ratBlt_asymm {a b : Rat} (h : Rat.blt a b = true) : Rat.blt b a = false := by
  cases hba : Rat.blt b a with
  | false => rfl
  | true => exact absurd (lt_trans (show a < b from h) (show b < a from hba)) (lt_irrefl a)

/-- A strictly smaller head makes the whole composite key strictly
smaller. -/
theorem keyLt_of_head_blt (x y : List Rat × String) (p1 p2 : Rat)
    (hx : x.1.head? = some p1) (hy : y.1.head? = some p2)
    (h : Rat.blt p1 p2 = true) : keyLt x y = true := by
  obtain ⟨xs, x2⟩ := x
  obtain ⟨ys, y2⟩ := y
  cases xs with
  | nil => simp at hx
  | cons a t1 =>
    cases ys with
    | nil => simp at hy
    | cons b t2 =>
      simp only [List.head?_cons, Option.some.injEq] at hx hy
      subst hx; subst hy
      simp only [keyLt, keyLe, lexListLt, h, ratBlt_asymm h]
      simp

/-- C1: `_sort_formats` raises "No video formats found" on an empty list;
on a non-empty list of descriptors (each carrying a `url`, as the data model
requires) with no caller `field_preference`, it sorts ascending by the
composite key, so the composite key of the last element is `≥` the composite
key of every element of the result. -/
theorem sort_formats_correct (preferFree : Bool) (L : List Fmt)
    (hurl : ∀ f ∈ L, (f.url).isSome = true) :
    (L = [] → sort_formats preferFree L = Except.error "No video formats found") ∧
    (L ≠ [] → ∃ M, sort_formats preferFree L = Except.ok M ∧ M ≠ [] ∧
      ∀ f ∈ M, ∀ g, M.getLast? = some g → fmtLe preferFree f g = true) := by
  constructor
  · intro h; subst h; rfl
  · intro hne
    have hall : ((L.map sort_formats_fill_tbr).map formats_key_fix_ext).all sortKeyDefined
        = true := by
      rw [List.all_eq_true]
      intro g hg
      rw [List.mem_map] at hg
      obtain ⟨g1, hg1, rfl⟩ := hg
      rw [List.mem_map] at hg1
      obtain ⟨f0, hf0, rfl⟩ := hg1
      have hu0 : (f0.url).isSome = true := hurl f0 hf0
      have hu1 : (sort_formats_fill_tbr f0).url = f0.url := by
        unfold sort_formats_fill_tbr
        split <;> rfl
      have hu2 : (formats_key_fix_ext (sort_formats_fill_tbr f0)).url = f0.url := by
        unfold formats_key_fix_ext
        split <;> simp [hu1]
      unfold sortKeyDefined
      rw [hu2, hu0, Bool.or_true]
    have hne2 : ((L.map sort_formats_fill_tbr).map formats_key_fix_ext) ≠ [] := by
      simpa using hne
    have hsf : sort_formats preferFree L =
        Except.ok (List.insertionSort (fun a b => fmtLe preferFree a b = true)
          ((L.map sort_formats_fill_tbr).map formats_key_fix_ext)) := by
      unfold sort_formats
      rw [if_neg hne, if_pos hall]
    refine ⟨_, hsf, ?_, ?_⟩
    · intro hMnil
      have hperm := List.perm_insertionSort (fun a b => fmtLe preferFree a b = true)
        ((L.map sort_formats_fill_tbr).map formats_key_fix_ext)
      rw [hMnil] at hperm
      exact hne2 (List.Perm.eq_nil hperm.symm)
    · haveI : IsTotal Fmt (fun a b => fmtLe preferFree a b = true) := ⟨fmtLe_total preferFree⟩
      haveI : IsTrans Fmt (fun a b => fmtLe preferFree a b = true) := ⟨fmtLe_trans preferFree⟩
      have hsorted := List.sorted_insertionSort (fun a b => fmtLe preferFree a b = true)
        ((L.map sort_formats_fill_tbr).map formats_key_fix_ext)
      intro f hf g hg
      exact pairwise_rel_getLast _ (fun a => (fmtLe_total preferFree a a).elim id id)
        _ hsorted f hf g hg

/-- Sample descriptors for the sorting witness. -/
def c1fmtA : Fmt :=
  { format_id := some "a", url := some "http://e.com/a.mp4", ext := some "mp4",
    protocol := some "https", tbr := some (q 500 1) }

/-- Second sample descriptor for the sorting witness. -/
def c1fmtB : Fmt :=
  { format_id := some "b", url := some "http://e.com/b.mp4", ext := some "mp4",
    protocol := some "https", tbr := some (q 1500 1) }

/-- Witness for C1 at concrete inputs. -/
theorem sort_formats_correct_witness :
    sort_formats false [] = Except.error "No video formats found" ∧
    (∃ M, sort_formats false [c1fmtB, c1fmtA] = Except.ok M ∧ M ≠ [] ∧
      ∀ f ∈ M, ∀ g, M.getLast? = some g → fmtLe false f g = true) :=
  ⟨(sort_formats_correct false [] (by intro f hf; simp at hf)).1 rfl,
   (sort_formats_correct false [c1fmtB, c1fmtA] (by decide)).2 (by simp)⟩

/-- C10: with no explicit `preference`, the composite key's primary
component is the base preference lowered by 50 for an audio-only descriptor
(`vcodec = "none"`) and by 40 for a video-only one (`acodec = "none"`,
`vcodec ≠ "none"`); hence among descriptors identical in every other key
field the muxed one sorts strictly above the video-only one, which sorts
strictly above the audio-only one. -/
theorem formats_key_codec_penalties (preferFree : Bool) (fm fv fa : Fmt)
    (hpm : fm.preference = none) (hpv : fv.preference = none) (hpa : fa.preference = none)
    (hmv : fm.vcodec ≠ some "none") (hma : fm.acodec ≠ some "none")
    (hvv : fv.vcodec ≠ some "none") (hva : fv.acodec = some "none")
    (hav : fa.vcodec = some "none")
    (hext : fa.ext = fm.ext ∧ fv.ext = fm.ext)
    (_hproto : fa.protocol = fm.protocol ∧ fv.protocol = fm.protocol)
    (_hu : fa.url = fm.url ∧ fv.url = fm.url)
    (_hlp : fa.language_preference = fm.language_preference ∧
      fv.language_preference = fm.language_preference)
    (_hq : fa.quality = fm.quality ∧ fv.quality = fm.quality)
    (_htbr : fa.tbr = fm.tbr ∧ fv.tbr = fm.tbr)
    (_hfsz : fa.filesize = fm.filesize ∧ fv.filesize = fm.filesize)
    (_hvbr : fa.vbr = fm.vbr ∧ fv.vbr = fm.vbr)
    (_hh : fa.height = fm.height ∧ fv.height = fm.height)
    (_hw : fa.width = fm.width ∧ fv.width = fm.width)
    (_habr : fa.abr = fm.abr ∧ fv.abr = fm.abr)
    (_hfps : fa.fps = fm.fps ∧ fv.fps = fm.fps)
    (_hfsa : fa.filesize_approx = fm.filesize_approx ∧
      fv.filesize_approx = fm.filesize_approx)
    (_hsp : fa.source_preference = fm.source_preference ∧
      fv.source_preference = fm.source_preference)
    (_hfid : fa.format_id = fm.format_id ∧ fv.format_id = fm.format_id) :
    (formats_key_codec_branch preferFree fa (formats_key_base_preference fa)).1 =
      qsub (formats_key_codec_branch preferFree fm (formats_key_base_preference fm)).1
        (q 50 1) ∧
    (formats_key_codec_branch preferFree fv (formats_key_base_preference fv)).1 =
      qsub (formats_key_codec_branch preferFree fm (formats_key_base_preference fm)).1
        (q 40 1) ∧
    keyLt (formats_key preferFree fa) (formats_key preferFree fv) = true ∧
    keyLt (formats_key preferFree fv) (formats_key preferFree fm) = true := by
  have hbase_a : formats_key_base_preference fa = formats_key_base_preference fm := by
    unfold formats_key_base_preference
    rw [hpa, hpm, hext.1]
  have hbase_v : formats_key_base_preference fv = formats_key_base_preference fm := by
    unfold formats_key_base_preference
    rw [hpv, hpm, hext.2]
  have hbr_m : (formats_key_codec_branch preferFree fm (formats_key_base_preference fm)).1 =
      formats_key_base_preference fm := by
    unfold formats_key_codec_branch
    rw [if_neg hmv, if_neg hma]
  have hbr_a : (formats_key_codec_branch preferFree fa (formats_key_base_preference fa)).1 =
      qsub (formats_key_base_preference fm) (q 50 1) := by
    unfold formats_key_codec_branch
    rw [if_pos hav, hbase_a]
  have hbr_v : (formats_key_codec_branch preferFree fv (formats_key_base_preference fv)).1 =
      qsub (formats_key_base_preference fm) (q 40 1) := by
    unfold formats_key_codec_branch
    rw [if_neg hvv, if_pos hva, hbase_v]
  have hblt : Rat.blt (qsub (formats_key_base_preference fm) (q 50 1))
        (qsub (formats_key_base_preference fm) (q 40 1)) = true ∧
      Rat.blt (qsub (formats_key_base_preference fm) (q 40 1))
        (formats_key_base_preference fm) = true := by
    unfold formats_key_base_preference
    rw [hpm]
    split_ifs <;> exact ⟨by decide, by decide⟩
  refine ⟨by rw [hbr_a, hbr_m], by rw [hbr_v, hbr_m], ?_, ?_⟩
  · exact keyLt_of_head_blt _ _ _ _ (by rw [show (formats_key preferFree fa).1.head? =
        some (formats_key_codec_branch preferFree fa (formats_key_base_preference fa)).1
        from rfl, hbr_a])
      (by rw [show (formats_key preferFree fv).1.head? =
        some (formats_key_codec_branch preferFree fv (formats_key_base_preference fv)).1
        from rfl, hbr_v])
      hblt.1
  · exact keyLt_of_head_blt _ _ _ _ (by rw [show (formats_key preferFree fv).1.head? =
        some (formats_key_codec_branch preferFree fv (formats_key_base_preference fv)).1
        from rfl, hbr_v])
      (by rw [show (formats_key preferFree fm).1.head? =
        some (formats_key_codec_branch preferFree fm (formats_key_base_preference fm)).1
        from rfl, hbr_m])
      hblt.2

/-- A muxed sample descriptor for the codec-penalty witness. -/
def c10muxed : Fmt :=
  { format_id := some "x", url := some "http://e.com/v.mp4", ext := some "mp4",
    protocol := some "https", tbr := some (q 800 1), vcodec := some "avc1",
    acodec := some "mp4a" }

/-- The video-only variant. -/
def c10video : Fmt := { c10muxed with acodec := some "none" }

/-- The audio-only variant. -/
def c10audio : Fmt := { c10muxed with vcodec := some "none" }

/-- Witness for C10 at concrete inputs. -/
theorem formats_key_codec_penalties_witness :
    (formats_key_codec_branch false c10audio (formats_key_base_preference c10audio)).1 =
      qsub (formats_key_codec_branch false c10muxed
        (formats_key_base_preference c10muxed)).1 (q 50 1) ∧
    (formats_key_codec_branch false c10video (formats_key_base_preference c10video)).1 =
      qsub (formats_key_codec_branch false c10muxed
        (formats_key_base_preference c10muxed)).1 (q 40 1) ∧
    keyLt (formats_key false c10audio) (formats_key false c10video) = true ∧
    keyLt (formats_key false c10video) (formats_key false c10muxed) = true :=
  formats_key_codec_penalties false c10muxed c10video c10audio rfl rfl rfl
    (by decide) (by decide) (by decide) rfl rfl
    ⟨rfl, rfl⟩ ⟨rfl, rfl⟩ ⟨rfl, rfl⟩ ⟨rfl, rfl⟩ ⟨rfl, rfl⟩ ⟨rfl, rfl⟩ ⟨rfl, rfl⟩
    ⟨rfl, rfl⟩ ⟨rfl, rfl⟩ ⟨rfl, rfl⟩ ⟨rfl, rfl⟩ ⟨rfl, rfl⟩ ⟨rfl, rfl⟩ ⟨rfl, rfl⟩
    ⟨rfl, rfl⟩

/-! ## Claim C2: DASH SegmentTimeline fragment generation -/

/-- SegmentTemplate with a `$Time$` media template and the timeline
`[{t:0, d:10, r:2}]`. -/
def c2tmpl : SegTmplE :=
  { common := { timeline := some [{ t := some 0, d := some 10, r := some 2 }] }
    media := some "seg-$Time$.m4s" }

/-- The C2 Representation. -/
def c2rep : RepE :=
  { attrib := { id := some "r1", mimeType := some "video/mp4" }
    seg := { segmentTemplate := some c2tmpl } }

/-- The C2 manifest. -/
def c2doc : MPDDoc :=
  { periods := [{ adaptationSets := [{ representations := [c2rep] }] }] }

/-- The descriptor C2 produces. -/
def c2fmt : Fmt :=
  { format_id := some "r1"
    url := some "http://e.com/"
    manifest_url := some "http://e.com/manifest.mpd"
    ext := some "mp4"
    format_note := some "DASH video"
    protocol := some "http_dash_segments"
    fragments := some [
      { url := some "http://e.com/seg-0.m4s", duration := some 10 },
      { url := some "http://e.com/seg-10.m4s", duration := some 10 },
      { url := some "http://e.com/seg-20.m4s", duration := some 10 }] }

/-- C2: a SegmentTimeline consisting of the single entry `{t:0, d:10, r:2}`
with `timescale = 1` yields exactly 3 fragments whose substituted start
times are 0, 10 and 20 and whose duration is 10 seconds each — stated for
an arbitrary media template, bandwidth and start number, and end-to-end
through `_parse_mpd_formats` on a `$Time$` template. -/
theorem dash_timeline_single_entry (mt : String) (bw : Option Int) (n : Int)
    (f0 f1 f2 : Fragment)
    (h0 : dash_add_segment_url mt bw 1 0 n 10 = Except.ok f0)
    (h1 : dash_add_segment_url mt bw 1 10 (n + 1) 10 = Except.ok f1)
    (h2 : dash_add_segment_url mt bw 1 20 (n + 2) 10 = Except.ok f2) :
    dash_timeline_fragments mt bw 1 n [{ t := 0, d := 10, r := 2 }] =
      Except.ok [f0, f1, f2] ∧
    f0.duration = some 10 ∧ f1.duration = some 10 ∧ f2.duration = some 10 ∧
    parse_mpd_formats c2doc none "http://e.com/" [] (some "http://e.com/manifest.mpd") =
      Except.ok [c2fmt] := by
  have hd : ∀ (t num : Int) (fr : Fragment),
      dash_add_segment_url mt bw 1 t num 10 = Except.ok fr → fr.duration = some 10 := by
    intro t num fr h
    unfold dash_add_segment_url at h
    cases hpf : pyFormatMap mt (dashTemplateMap t num bw) with
    | error e =>
      rw [hpf] at h
      exact Except.noConfusion h
    | ok u =>
      rw [hpf] at h
      have h2 : ({ url := some u, duration := float_or_noneI (some 10) 1 } : Fragment) = fr :=
        Except.ok.inj h
      rw [← h2]
      rfl
  refine ⟨?_, hd 0 n f0 h0, hd 10 (n + 1) f1 h1, hd 20 (n + 2) f2 h2, rfl⟩
  unfold dash_timeline_fragments
  simp only [List.foldlM]
  norm_num
  rw [h0, h1]
  simp only [Except.bind, bind]
  norm_num
  have hn : n + 1 + 1 = n + 2 := by ring
  rw [hn, h2]

/-- Witness for C2 at a concrete transformed template and fragments. -/
theorem dash_timeline_single_entry_witness :
    dash_timeline_fragments "seg-%(Time)d.m4s" none 1 1 [{ t := 0, d := 10, r := 2 }] =
      Except.ok [({ url := some "seg-0.m4s", duration := some 10 } : Fragment),
        { url := some "seg-10.m4s", duration := some 10 },
        { url := some "seg-20.m4s", duration := some 10 }] ∧
    ({ url := some "seg-0.m4s", duration := some 10 } : Fragment).duration = some 10 ∧
    ({ url := some "seg-10.m4s", duration := some 10 } : Fragment).duration = some 10 ∧
    ({ url := some "seg-20.m4s", duration := some 10 } : Fragment).duration = some 10 ∧
    parse_mpd_formats c2doc none "http://e.com/" [] (some "http://e.com/manifest.mpd") =
      Except.ok [c2fmt] :=
  dash_timeline_single_entry "seg-%(Time)d.m4s" none 1 _ _ _ rfl rfl rfl

/-! ## Claim C3: DASH merge-on-duplicate-representation-id -/

/-- A period holding one Representation with id `r1` and the given
BaseURL. -/
def c3period (u : String) : PeriodE :=
  { adaptationSets := [{ representations := [
      { attrib := { id := some "r1", mimeType := some "video/mp4" }
        baseURL := some { text := u } }] }] }

/-- An MPD describing the same Representation id in two Periods. -/
def c3doc : MPDDoc :=
  { periods := [c3period "http://e.com/v1.mp4", c3period "http://e.com/v2.mp4"] }

/-- C3 fails on the code: the merge lookup compares `fo['format_id']`
against the bare representation id, so with a non-empty `mpd_id` prefix
(`format_id = "dash-r1"`) it never matches and a duplicate descriptor is
appended; only with no prefix does the second occurrence merge into the
first. -/
theorem mpd_duplicate_id_bug :
    (parse_mpd_formats c3doc (some "dash") "" [] none).map
        (fun l => l.map (fun f => f.format_id)) =
      Except.ok [some "dash-r1", some "dash-r1"] ∧
    (parse_mpd_formats c3doc none "" [] none).map (fun l => l.map (fun f => f.format_id)) =
      Except.ok [some "r1"] :=
  ⟨rfl, rfl⟩

/-! ## Claim C4: DASH SegmentList URLs paired against the timeline -/

/-- SegmentList with three explicit URLs and the timeline `[{t:0,d:10,r:2}]`. -/
def c4segs : SegListE :=
  { common := { timeline := some [{ t := some 0, d := some 10, r := some 2 }] }
    segmentURLs := [{ media := some "http://e.com/u0.mp4" },
                    { media := some "http://e.com/u1.mp4" },
                    { media := some "http://e.com/u2.mp4" }] }

/-- The C4 Representation. -/
def c4rep : RepE :=
  { attrib := { id := some "r1", mimeType := some "video/mp4" }
    seg := { segmentList := some c4segs } }

/-- The C4 manifest. -/
def c4doc : MPDDoc := { periods := [{ adaptationSets := [{ representations := [c4rep] }] }] }

/-- C4 fails on the code: `s_num` is initialised to 0 and never advanced,
and the loop walks the URL list emitting `r + 1` fragments per URL, so the
three URLs under `[{t:0,d:10,r:2}]` yield nine fragments (each URL tripled,
all with the first entry's duration) instead of pairing the entry's three
repetitions against three consecutive URLs. -/
theorem dash_segment_list_pairing_bug :
    (parse_mpd_formats c4doc none "" [] none).map (fun l => l.map (fun f => f.fragments)) =
      Except.ok [some [
        ({ url := some "http://e.com/u0.mp4", duration := some 10 } : Fragment),
        { url := some "http://e.com/u0.mp4", duration := some 10 },
        { url := some "http://e.com/u0.mp4", duration := some 10 },
        { url := some "http://e.com/u1.mp4", duration := some 10 },
        { url := some "http://e.com/u1.mp4", duration := some 10 },
        { url := some "http://e.com/u1.mp4", duration := some 10 },
        { url := some "http://e.com/u2.mp4", duration := some 10 },
        { url := some "http://e.com/u2.mp4", duration := some 10 },
        { url := some "http://e.com/u2.mp4", duration := some 10 }]] :=
  rfl

/-! ## Claim C5: ISM chunk duration derivation -/

/-- Stream `Duration = 20`, timescale 1, two chunks: `{t:0}` (duration to be
derived) and `{t:12, d:8}`. -/
def c5doc : IsmDoc :=
  { durationAttr := some 20
    timeScale := some 1
    streams := [{ typ := some "video"
                  url := some "QL({bitrate})/F(video={start time})"
                  timescale := some 1
                  qualityLevels := [{ fourCC := some "H264", bitrate := some 1000 }]
                  chunks := [{ t := some 0 }, { t := some 12, d := some 8 }] }] }

/-- C5 fails on the code: the first chunk's missing duration is derived from
the stream-level `Duration` (giving 20) even though a following chunk starts
at `t = 12` — the source indexes the current chunk element's children
(`stream_fragment[...]` instead of the chunk list), which always raises
`IndexError` on leaf chunks, so the "next chunk" case of the derivation is
unreachable. -/
theorem ism_chunk_duration_bug :
    (parse_ism_formats c5doc "http://e.com/m.ism/Manifest" none).map
        (fun l => l.map (fun f => f.fragments)) =
      Except.ok [some [
        ({ url := some "http://e.com/m.ism/QL(1000)/F(video=0)", duration := some 20 } : Fragment),
        { url := some "http://e.com/m.ism/QL(1000)/F(video=12)", duration := some 8 }]] :=
  rfl

/-! ## Claim C7: a Representation lacking mimeType -/

/-- A well-formed Representation. -/
def c7good : RepE :=
  { attrib := { id := some "r1", mimeType := some "video/mp4" }
    baseURL := some { text := "http://e.com/v1.mp4" } }

/-- A Representation lacking the mandatory `mimeType` (also absent on its
AdaptationSet). -/
def c7bad : RepE := { attrib := { id := some "r2" } }

/-- Manifest with one well-formed and one malformed Representation. -/
def c7doc : MPDDoc :=
  { periods := [{ adaptationSets := [{ representations := [c7good, c7bad] }] }] }

/-- The same manifest without the malformed Representation. -/
def c7docGood : MPDDoc :=
  { periods := [{ adaptationSets := [{ representations := [c7good] }] }] }

/-- The descriptor the well-formed Representation alone produces. -/
def c7goodFmt : Fmt :=
  { format_id := some "r1"
    url := some "http://e.com/v1.mp4"
    ext := some "mp4"
    format_note := some "DASH video" }

/-- Is an `Except` a success? -/
def exceptIsOk {ε α : Type} : Except ε α → Bool
  | Except.ok _ => true
  | Except.error _ => false

/-- Counterexample to C7: with one Representation lacking `mimeType`, the
parse does not succeed at all (no descriptors from the well-formed
Representations are returned). -/
theorem mpd_missing_mimetype_not_skipped :
    exceptIsOk (parse_mpd_formats c7doc none "" [] none) = false :=
  rfl

/-- C7 amended: a reached Representation whose merged attributes lack the
mandatory `mimeType` aborts the whole `_parse_mpd_formats` invocation with a
`KeyError` — the well-formed Representations' descriptors (produced when the
malformed one is absent) are all lost. -/
theorem mpd_missing_mimetype_aborts :
    parse_mpd_formats c7doc none "" [] none = Except.error "KeyError: mimeType" ∧
    parse_mpd_formats c7docGood none "" [] none = Except.ok [c7goodFmt] :=
  ⟨rfl, rfl⟩

/-! ## Claim C8: Akamai pv-2.0 refusal -/

/-- A directly-playable media entry. -/
def c8media : F4MMedia := { url := some "x", bitrate := some "800" }

/-- F4M manifest with the given `pv-2.0` text and one media entry under a
stream-level (`bootstrapInfo`-bearing) manifest. -/
def c8doc (pv : Option String) : F4MDoc :=
  { pv20 := pv, media10 := [c8media], bootstrapInfo := true }

/-- Counterexample to C8: a non-empty challenge text without a `;`
(`"abc"`) is *not* refused — the parse still returns the media entry's
descriptor. -/
theorem f4m_pv_without_semicolon_not_refused :
    parse_f4m_formats (fun _ => []) (fun _ => []) (c8doc (some "abc"))
        "http://e.com/a.f4m" none none =
      [{ format_id := some "800", url := some "http://e.com/a.f4m",
         manifest_url := some "http://e.com/a.f4m", ext := some "flv",
         tbr := some (q 800 1) }] :=
  rfl

/-- C8 amended: an F4M manifest whose `pv-2.0` text contains a `;` and whose
substring before the first `;` is non-blank after stripping yields an empty
descriptor list regardless of any other manifest content. -/
theorem f4m_pv_challenge_refused (txt : String)
    (h1 : strContains txt ";" = true)
    (h2 : pyStrip (String.mk (txt.data.takeWhile (fun c => c ≠ ';'))) ≠ "")
    (fetchF4M fetchM3u8 : String → List Fmt) (media10 media20 : List F4MMedia)
    (baseURL : Option String) (bootstrapInfo : Bool) (mimeType : Option String)
    (manifest_url : String) (preference : Option Rat) (f4m_id : Option String) :
    parse_f4m_formats fetchF4M fetchM3u8
      { pv20 := some txt, media10 := media10, media20 := media20, baseURL := baseURL,
        bootstrapInfo := bootstrapInfo, mimeType := mimeType }
      manifest_url preference f4m_id = [] := by
  have hcond : f4m_pv_refused (some txt) = true := by
    show (strContains txt ";" &&
      decide (pyStrip (String.mk (txt.data.takeWhile (fun c => c ≠ ';'))) ≠ "")) = true
    rw [h1, decide_eq_true h2]
    rfl
  have hcond2 : f4m_pv_refused (F4MDoc.pv20
      { pv20 := some txt, media10 := media10, media20 := media20, baseURL := baseURL,
        bootstrapInfo := bootstrapInfo, mimeType := mimeType }) = true := hcond
  unfold parse_f4m_formats
  rw [hcond2]
  simp

/-- Witness for the amended C8 at a concrete challenge. -/
theorem f4m_pv_challenge_refused_witness :
    parse_f4m_formats (fun _ => []) (fun _ => [])
      { pv20 := some "abc;def", media10 := [c8media], media20 := [], baseURL := none,
        bootstrapInfo := true, mimeType := none }
      "http://e.com/a.f4m" none none = [] :=
  f4m_pv_challenge_refused "abc;def" rfl (by decide) (fun _ => []) (fun _ => [])
    [c8media] [] none true none "http://e.com/a.f4m" none none

/-! ## Claim C9: `$$` in DASH media templates -/

/-- SegmentTemplate whose media template contains `$$`. -/
def c9tmpl : SegTmplE :=
  { common := { timeline := some [{ t := some 0, d := some 5, r := some 0 }] }
    media := some "f$$x$Time$.mp4" }

/-- The C9 Representation. -/
def c9rep : RepE :=
  { attrib := { id := some "r1", mimeType := some "video/mp4" }
    seg := { segmentTemplate := some c9tmpl } }

/-- The C9 manifest. -/
def c9doc : MPDDoc :=
  { periods := [{ adaptationSets := [{ representations := [c9rep] }] }] }

/-- C9 fails on the code: source line 1701 evaluates
`media_template.replace('$$', '$')` but discards the result, so the produced
fragment URL still contains the literal `$$` instead of a single `$`. -/
theorem dash_template_dollar_dollar_bug :
    (parse_mpd_formats c9doc none "http://e.com/" [] none).map
        (fun l => l.map (fun f => f.fragments)) =
      Except.ok
        [some [({ url := some "http://e.com/f$$x0.mp4", duration := some 5 } : Fragment)]] ∧
    strContains "http://e.com/f$$x0.mp4" "$$" = true ∧
    "http://e.com/f$$x0.mp4" ≠ "http://e.com/f$x0.mp4" :=
  ⟨rfl, rfl, by decide⟩

/-! ## Claim C6: HLS master playlist with two streams -/

/-- Master playlist (no `#EXT-X-TARGETDURATION`) with two
`#EXT-X-STREAM-INF` entries of bandwidth 500000 and 1500000. -/
def c6doc : String :=
  "#EXTM3U\n#EXT-X-STREAM-INF:BANDWIDTH=500000\nhttp://example.com/low.m3u8\n#EXT-X-STREAM-INF:BANDWIDTH=1500000\nhttp://example.com/high.m3u8"

set_option maxRecDepth 8000

/-- C6: the master playlist yields the synthetic meta descriptor first (at
`preference − 100`, or −100 when the caller preference is falsy), followed
by the two stream descriptors with `tbr` 500 and 1500; and with `live=true`
the stream descriptors' format ids are not derived from the bitrate (they
are just the caller's id prefix). -/
theorem m3u8_master_two_streams (p : Option Rat) :
    extract_m3u8_formats_doc c6doc "http://example.com/master.m3u8" (some "mp4") "m3u8"
        p none false =
      [m3u8_meta_format "http://example.com/master.m3u8" (some "mp4") p none,
       { format_id := some "500", url := some "http://example.com/low.m3u8",
         manifest_url := some "http://example.com/low.m3u8", ext := some "mp4",
         protocol := some "m3u8", preference := p, tbr := some (q 500 1) },
       { format_id := some "1500", url := some "http://example.com/high.m3u8",
         manifest_url := some "http://example.com/high.m3u8", ext := some "mp4",
         protocol := some "m3u8", preference := p, tbr := some (q 1500 1) }] ∧
    (m3u8_meta_format "http://example.com/master.m3u8" (some "mp4") p none).preference =
      some (match p with
        | some pr => if pr = 0 then q (-100) 1 else qsub pr (q 100 1)
        | none => q (-100) 1) ∧
    (extract_m3u8_formats_doc c6doc "http://example.com/master.m3u8" (some "mp4") "m3u8"
        none (some "hls") true).map (fun f => f.format_id) =
      [some "hls-meta", some "hls", some "hls"] := by
  refine ⟨?_, rfl, rfl⟩
  rfl
